import Mathlib

/-!
Verification of the Bharath-Bridge Eligibility & Risk Decision Engine.

This file shallowly embeds the core of the backend (the scheme knowledge
graph, the rule evaluator, scheme discovery and ranking, benefit-chain and
conflict traversals, and the two-signal rejection-risk scorer) in Lean 4 and
proves or refutes the specification claims about it.

Conventions of the embedding:
* Python floats are modelled as exact rationals (`ℚ`).  All arithmetic in the
  embedded code goes through the wrappers `pyMul`, `pyAdd`, `pySub`, `pyDiv`
  below, which are provably equal to `*`, `+`, `-`, `/` on `ℚ` but are built
  from `mkRat` so that concrete runs reduce inside the Lean kernel.
* Python exceptions are modelled with `Except PyError`: `int(...)` and
  `float(...)` raising `ValueError` on a malformed literal, and NetworkX
  raising `NetworkXError` when a node is absent from the graph.
* `random.uniform(-0.03, 0.03)` in the feature-weighted scorer is modelled as
  an explicit `noise` parameter.
* Python's builtin `round` (banker's rounding, round-half-to-even) is
  modelled exactly on rationals by `pyRound`.
* String-valued enums (`Gender`, `CasteCategory`, ...) are modelled by their
  `.value` strings, which is how the engine itself compares them.
-/

set_option maxRecDepth 8000

/-- Errors raised by the embedded Python code: `ValueError` from `int()` or
`float()` on malformed literals, `NetworkXError` from graph lookups on
absent nodes. -/
inductive PyError where
  | valueError : PyError
  | networkxError : PyError
deriving DecidableEq, Repr

deriving instance DecidableEq for Except

/-! ## Kernel-computable rational arithmetic

`Rat.mul`, `Rat.add`, ... are `@[irreducible]` in Batteries, so closed terms
built from them do not reduce under `decide`.  The wrappers below compute the
same values through `mkRat`, which does reduce; the `.._eq` lemmas let proofs
switch to ordinary field arithmetic. -/

def pyMul (a b : ℚ) : ℚ := mkRat (a.num * b.num) (a.den * b.den)

def pyAdd (a b : ℚ) : ℚ := mkRat (a.num * b.den + b.num * a.den) (a.den * b.den)

def pySub (a b : ℚ) : ℚ := mkRat (a.num * b.den - b.num * a.den) (a.den * b.den)

def pyDiv (a b : ℚ) : ℚ :=
  if 0 ≤ b.num then mkRat (a.num * (b.den : Int)) (a.den * b.num.natAbs)
  else mkRat (-(a.num * (b.den : Int))) (a.den * b.num.natAbs)

theorem pyMul_eq (a b : ℚ) : pyMul a b = a * b := by
  rw [pyMul, Rat.mkRat_eq_divInt, Rat.divInt_eq_div]
  push_cast
  conv_rhs => rw [← Rat.num_div_den a, ← Rat.num_div_den b]
  rw [div_mul_div_comm]

theorem pyAdd_eq (a b : ℚ) : pyAdd a b = a + b := by
  have ha : ((a.den : ℚ)) ≠ 0 := Nat.cast_ne_zero.mpr a.den_nz
  have hb : ((b.den : ℚ)) ≠ 0 := Nat.cast_ne_zero.mpr b.den_nz
  rw [pyAdd, Rat.mkRat_eq_divInt, Rat.divInt_eq_div]
  push_cast
  conv_rhs => rw [← Rat.num_div_den a, ← Rat.num_div_den b]
  rw [div_add_div _ _ ha hb]
  ring_nf

theorem pySub_eq (a b : ℚ) : pySub a b = a - b := by
  have ha : ((a.den : ℚ)) ≠ 0 := Nat.cast_ne_zero.mpr a.den_nz
  have hb : ((b.den : ℚ)) ≠ 0 := Nat.cast_ne_zero.mpr b.den_nz
  rw [pySub, Rat.mkRat_eq_divInt, Rat.divInt_eq_div]
  push_cast
  conv_rhs => rw [← Rat.num_div_den a, ← Rat.num_div_den b]
  rw [div_sub_div _ _ ha hb]
  ring_nf

theorem den_mul_self_eq_num (q : ℚ) : (q.den : ℚ) * q = (q.num : ℚ) := by
  have hden : ((q.den : ℚ)) ≠ 0 := Nat.cast_ne_zero.mpr q.den_nz
  rw [mul_comm]
  exact (eq_div_iff hden).mp (Rat.num_div_den q).symm

theorem pyDiv_eq (a b : ℚ) : pyDiv a b = a / b := by
  rcases eq_or_ne b 0 with rfl | hb
  · simp [pyDiv, Rat.mkRat_eq_divInt, Rat.divInt_eq_div]
  · have hbnum : b.num ≠ 0 := Rat.num_ne_zero.mpr hb
    have hbq : ((b.num : ℚ)) ≠ 0 := Int.cast_ne_zero.mpr hbnum
    have had : ((a.den : ℚ)) ≠ 0 := Nat.cast_ne_zero.mpr a.den_nz
    have key : ((a.num : ℚ) * (b.den : ℚ)) / ((a.den : ℚ) * (b.num : ℚ)) = a / b := by
      rw [div_eq_div_iff (mul_ne_zero had hbq) hb]
      calc ((a.num : ℚ) * b.den) * b = (a.num : ℚ) * ((b.den : ℚ) * b) := by ring
        _ = (a.num : ℚ) * b.num := by rw [den_mul_self_eq_num]
        _ = ((a.den : ℚ) * a) * b.num := by rw [den_mul_self_eq_num]
        _ = a * ((a.den : ℚ) * (b.num : ℚ)) := by ring
    rw [pyDiv]
    split
    · next h =>
      rw [Rat.mkRat_eq_divInt, Rat.divInt_eq_div, ← key]
      push_cast [Int.natAbs_of_nonneg h]
      ring_nf
    · next h =>
      push_neg at h
      rw [Rat.mkRat_eq_divInt, Rat.divInt_eq_div, ← key]
      push_cast
      rw [abs_of_neg (show ((b.num : ℚ)) < 0 by exact_mod_cast h)]
      rw [mul_neg, div_neg, neg_div, neg_neg]

/-- Python's builtin `round(x)` restricted to the integer result:
round-half-to-even (banker's rounding). -/
def pyRoundInt (q : ℚ) : ℤ :=
  if pySub q (mkRat (Rat.floor q) 1) < mkRat 1 2 then Rat.floor q
  else if mkRat 1 2 < pySub q (mkRat (Rat.floor q) 1) then Rat.floor q + 1
  else if Rat.floor q % 2 = 0 then Rat.floor q else Rat.floor q + 1

/-- Python's `round(x, nd)` for `nd` decimal digits, on exact rationals. -/
def pyRound (q : ℚ) (nd : ℕ) : ℚ :=
  pyDiv (mkRat (pyRoundInt (pyMul q ((10 ^ nd : ℕ) : ℚ))) 1) ((10 ^ nd : ℕ) : ℚ)

theorem rat_floor_eq (q : ℚ) : Rat.floor q = ⌊q⌋ := by
  have h1 := Rat.floor_def (q := q)
  have h2 := Rat.floor_def' q
  omega

theorem pyRoundInt_frac_eq (q : ℚ) :
    pySub q (mkRat (⌊q⌋ : ℤ) 1) = q - ((⌊q⌋ : ℤ) : ℚ) := by
  rw [pySub_eq, Rat.mkRat_one]

theorem mkRat_half_eq : mkRat 1 2 = (1 : ℚ) / 2 := by
  rw [Rat.mkRat_eq_divInt, Rat.divInt_eq_div]
  norm_num

theorem floor_le_pyRoundInt (q : ℚ) : ⌊q⌋ ≤ pyRoundInt q := by
  rw [pyRoundInt]
  simp only [rat_floor_eq]
  split
  · exact le_refl _
  · split
    · omega
    · split
      · exact le_refl _
      · omega

theorem pyRoundInt_le_ceil (q : ℚ) : pyRoundInt q ≤ ⌈q⌉ := by
  have hfc : ⌊q⌋ ≤ ⌈q⌉ := Int.floor_le_ceil q
  have hstep : mkRat 1 2 ≤ pySub q (mkRat (⌊q⌋ : ℤ) 1) → ⌊q⌋ + 1 ≤ ⌈q⌉ := by
    intro hpos
    rw [pyRoundInt_frac_eq, mkRat_half_eq] at hpos
    have hlt : ((⌊q⌋ : ℤ) : ℚ) < q := by linarith
    have := Int.lt_ceil.mpr hlt
    omega
  rw [pyRoundInt]
  simp only [rat_floor_eq]
  split
  · exact hfc
  · next h1 =>
    push_neg at h1
    split
    · exact hstep h1
    · split
      · exact hfc
      · exact hstep h1

theorem pyRound_eq (q : ℚ) (nd : ℕ) :
    pyRound q nd =
      ((pyRoundInt (pyMul q ((10 ^ nd : ℕ) : ℚ)) : ℤ) : ℚ) / ((10 ^ nd : ℕ) : ℚ) := by
  rw [pyRound, pyDiv_eq, Rat.mkRat_eq_divInt, Rat.divInt_eq_div]
  norm_num

/-- Rounding a non-negative value stays non-negative. -/
theorem pyRound_nonneg {q : ℚ} (h : 0 ≤ q) (nd : ℕ) : 0 ≤ pyRound q nd := by
  rw [pyRound_eq]
  apply div_nonneg _ (by positivity)
  have h1 : (0 : ℤ) ≤ ⌊pyMul q ((10 ^ nd : ℕ) : ℚ)⌋ := by
    rw [pyMul_eq]
    exact Int.floor_nonneg.mpr (by positivity)
  exact_mod_cast le_trans h1 (floor_le_pyRoundInt _)

/-- Rounding a value at most `1` stays at most `1`. -/
theorem pyRound_le_one {q : ℚ} (h : q ≤ 1) (nd : ℕ) : pyRound q nd ≤ 1 := by
  rw [pyRound_eq]
  have hp : (0 : ℚ) < ((10 ^ nd : ℕ) : ℚ) := by positivity
  rw [div_le_one hp]
  have hceil : ⌈pyMul q ((10 ^ nd : ℕ) : ℚ)⌉ ≤ ((10 ^ nd : ℕ) : ℤ) := by
    rw [pyMul_eq]
    apply Int.ceil_le.mpr
    push_cast
    calc q * ((10 : ℚ) ^ nd) ≤ 1 * ((10 : ℚ) ^ nd) := by
          apply mul_le_mul_of_nonneg_right h (by positivity)
      _ = (10 : ℚ) ^ nd := one_mul _
  exact_mod_cast le_trans (pyRoundInt_le_ceil _) hceil

/-! ## Kernel-computable string helpers

`String.toLower`, `String.splitOn`, `String.trim`, `<` on `String` and
`String.replace` are implemented with `Substring`/iterator machinery that the
kernel does not reduce, so the embedding uses direct `List Char` versions.
They model the CPython behaviours used by the engine (`str.lower`,
`str.split(",")`, `str.strip()`, `<` on strings, `str.replace('_', ' ')`)
on the ASCII data the engine manipulates. -/

def pyCharLower (c : Char) : Char :=
  if 'A' ≤ c ∧ c ≤ 'Z' then Char.ofNat (c.toNat + 32) else c

/-- `str.lower()` (ASCII). -/
def pyLower (s : String) : String := ⟨s.data.map pyCharLower⟩

/-- `str.strip()`: remove leading and trailing whitespace. -/
def pyStrip (s : String) : String :=
  ⟨((s.data.dropWhile Char.isWhitespace).reverse.dropWhile Char.isWhitespace).reverse⟩

def pySplitAux (delim : Char) : List Char → List Char → List String
  | [], acc => [⟨acc.reverse⟩]
  | c :: rest, acc =>
    if c = delim then ⟨acc.reverse⟩ :: pySplitAux delim rest []
    else pySplitAux delim rest (c :: acc)

/-- `str.split(d)` for a one-character separator `d`. -/
def pySplit (delim : Char) (s : String) : List String := pySplitAux delim s.data []

def pyCharListLt : List Char → List Char → Bool
  | [], [] => false
  | [], _ :: _ => true
  | _ :: _, [] => false
  | c :: cs, d :: ds => if c < d then true else if d < c then false else pyCharListLt cs ds

/-- `a < b` on Python strings: lexicographic comparison of code points. -/
def pyStrLt (a b : String) : Bool := pyCharListLt a.data b.data

/-- `str.replace('_', ' ')` (single-character pattern). -/
def pyReplaceUnderscore (s : String) : String :=
  ⟨s.data.map (fun c => if c = '_' then ' ' else c)⟩

/-! ## Python numeric literal parsing

`int(s)` / `float(s)` on the plain decimal strings the scheme catalog uses.
Exotic `float` syntax (exponents, `inf`, `nan`) is not modelled; every value
the code parses is either a plain integer/decimal literal (parse succeeds) or
not a numeric literal at all (raises `ValueError`). -/

def pyDigit (c : Char) : Option ℕ :=
  if '0' ≤ c ∧ c ≤ '9' then some (c.toNat - '0'.toNat) else none

def pyDigitsToNat : List Char → ℕ → Option ℕ
  | [], acc => some acc
  | c :: rest, acc =>
    match pyDigit c with
    | some d => pyDigitsToNat rest (acc * 10 + d)
    | none => none

/-- `int(s)`: optional surrounding whitespace, optional sign, decimal digits. -/
def pyInt (s : String) : Option ℤ :=
  match (pyStrip s).data with
  | '-' :: rest =>
    if rest.isEmpty then none
    else (pyDigitsToNat rest 0).map (fun n => -(n : ℤ))
  | '+' :: rest =>
    if rest.isEmpty then none
    else (pyDigitsToNat rest 0).map (fun n => (n : ℤ))
  | digits =>
    if digits.isEmpty then none
    else (pyDigitsToNat digits 0).map (fun n => (n : ℤ))

def pyFloatDigits (intPart fracPart : List Char) : Option ℚ :=
  if intPart.isEmpty ∧ fracPart.isEmpty then none
  else
    match pyDigitsToNat intPart 0, pyDigitsToNat fracPart 0 with
    | some ip, some fp => some (pyAdd (mkRat ip 1) (mkRat fp (10 ^ fracPart.length)))
    | _, _ => none

/-- `float(s)`: optional sign, decimal digits with an optional fraction part. -/
def pyFloat (s : String) : Option ℚ :=
  match (pyStrip s).data with
  | '-' :: rest =>
    (match rest.splitOnP (· = '.') with
     | [ip] => pyFloatDigits ip []
     | [ip, fp] => pyFloatDigits ip fp
     | _ => none).map (fun q => pySub (mkRat 0 1) q)
  | '+' :: rest =>
    (match rest.splitOnP (· = '.') with
     | [ip] => pyFloatDigits ip []
     | [ip, fp] => pyFloatDigits ip fp
     | _ => none)
  | chars =>
    match chars.splitOnP (· = '.') with
    | [ip] => pyFloatDigits ip []
    | [ip, fp] => pyFloatDigits ip fp
    | _ => none

/-! ## Data model (`backend/models/scheme.py`, `backend/models/citizen.py`)

The pydantic string-enums (`Gender`, `CasteCategory`, `EducationLevel`,
`Occupation`, `SchemeCategory`) are modelled by their `.value` strings, since
every comparison the engine performs is on those strings.  Fields that no
embedded operation reads (ministry, descriptions, portal URLs, deadlines,
processing metadata, contact fields, timestamps) are omitted from the
records; every field read by the engine is present under its source name. -/

inductive RuleType where
  | age_min | age_max | income_max | gender | caste | state | occupation
  | education_min | education_max | bpl | disability | pregnant
  | has_children | has_daughters | minority | custom
deriving DecidableEq, Repr

/-- The `.value` string of the `RuleType` enum. -/
def RuleType.value : RuleType → String
  | .age_min => "age_min"
  | .age_max => "age_max"
  | .income_max => "income_max"
  | .gender => "gender"
  | .caste => "caste"
  | .state => "state"
  | .occupation => "occupation"
  | .education_min => "education_min"
  | .education_max => "education_max"
  | .bpl => "bpl"
  | .disability => "disability"
  | .pregnant => "pregnant"
  | .has_children => "has_children"
  | .has_daughters => "has_daughters"
  | .minority => "minority"
  | .custom => "custom"

structure EligibilityRule where
  rule_id : String := ""
  rule_type : RuleType
  condition : String := ""
  value : String := ""
  description : String := ""
deriving DecidableEq, Repr

structure Scheme where
  scheme_id : String
  name : String
  category : String
  benefit_amount : ℚ := 0
  eligibility_rules : List EligibilityRule := []
  required_documents : List String := []
  approval_rate : ℚ := mkRat 7 10
  depends_on : List String := []
  conflicts_with : List String := []
deriving DecidableEq, Repr

structure SchemeMatch where
  scheme : Scheme
  eligibility_score : ℚ := 0
  matched_rules : List String := []
  failed_rules : List String := []
  missing_documents : List String := []
  estimated_benefit : ℚ := 0
  approval_probability : ℚ := 0
  is_eligible : Bool := false
  rank : ℕ := 0
  conflicts : List String := []
  unlocks : List String := []
deriving DecidableEq, Repr

structure Address where
  state : String := ""
deriving DecidableEq, Repr

structure FamilyMember where
  name : String := ""
  relationship : String
  age : ℤ
  gender : String
deriving DecidableEq, Repr

structure CitizenProfile where
  age : Option ℤ := none
  gender : String := "male"
  aadhaar_number : String := ""
  address : Address := {}
  caste_category : String := "general"
  annual_income : ℚ := 0
  occupation : String := "other"
  education : String := "none"
  is_bpl : Bool := false
  is_disabled : Bool := false
  is_minority : Bool := false
  is_pregnant : Bool := false
  family_members : List FamilyMember := []
  bank_account : String := ""
  documents : List String := []
deriving DecidableEq, Repr

/-- `CitizenProfile.num_children` property. -/
def CitizenProfile.num_children (c : CitizenProfile) : ℕ :=
  (c.family_members.filter (fun m => m.relationship == "child")).length

/-- `CitizenProfile.num_daughters` property. -/
def CitizenProfile.num_daughters (c : CitizenProfile) : ℕ :=
  (c.family_members.filter
    (fun m => m.relationship == "child" && m.gender == "female")).length

/-- A risk-factor record emitted by the rule-based scorer.  The human-text
`details` field (pure f-string formatting) is not modelled. -/
structure RiskFactor where
  factor : String
  severity : String
  risk_contribution : ℚ
deriving DecidableEq, Repr

structure RejectionAnalysis where
  rejection_probability : ℚ
  risk_level : String
  risk_factors : List RiskFactor
  recommendations : List String
  common_rejection_patterns : List String
deriving DecidableEq, Repr

/-! ## Scheme catalog (`backend/knowledge/schemes_data.py`)

The 16 catalog schemes, restricted to the fields the engine reads.
`approval_rate` decimals are written with `mkRat` (e.g. `mkRat 85 100`
is the source's `0.85`) to keep concrete runs kernel-computable. -/

def pm_kisan : Scheme :=
  { scheme_id := "pm_kisan", name := "PM-KISAN Samman Nidhi", category := "agriculture",
    benefit_amount := 6000,
    eligibility_rules := [
      { rule_id := "pmk_1", rule_type := .occupation, condition := "==", value := "farmer",
        description := "Must be a farmer" },
      { rule_id := "pmk_2", rule_type := .income_max, condition := "<=", value := "500000",
        description := "Annual income ≤ ₹5 lakh" }],
    required_documents := ["aadhaar", "bank_statement", "income_certificate"],
    approval_rate := mkRat 85 100 }

def pm_ujjwala : Scheme :=
  { scheme_id := "pm_ujjwala", name := "Pradhan Mantri Ujjwala Yojana", category := "energy",
    benefit_amount := 1600,
    eligibility_rules := [
      { rule_id := "uj_1", rule_type := .gender, condition := "==", value := "female",
        description := "Applicant must be female" },
      { rule_id := "uj_2", rule_type := .bpl, condition := "==", value := "true",
        description := "Must belong to BPL household" },
      { rule_id := "uj_3", rule_type := .age_min, condition := ">=", value := "18",
        description := "Age ≥ 18" }],
    required_documents := ["aadhaar", "bpl_card", "bank_statement"],
    approval_rate := mkRat 80 100 }

def pmay : Scheme :=
  { scheme_id := "pmay", name := "Pradhan Mantri Awas Yojana (Gramin)", category := "housing",
    benefit_amount := 120000,
    eligibility_rules := [
      { rule_id := "pmay_1", rule_type := .bpl, condition := "==", value := "true",
        description := "BPL household" },
      { rule_id := "pmay_2", rule_type := .income_max, condition := "<=", value := "300000",
        description := "Annual income ≤ ₹3 lakh" }],
    required_documents := ["aadhaar", "income_certificate", "bpl_card", "bank_statement"],
    approval_rate := mkRat 65 100,
    depends_on := ["pm_jan_dhan"] }

def pm_jan_dhan : Scheme :=
  { scheme_id := "pm_jan_dhan", name := "Pradhan Mantri Jan Dhan Yojana",
    category := "financial_inclusion",
    benefit_amount := 10000,
    eligibility_rules := [
      { rule_id := "jdy_1", rule_type := .age_min, condition := ">=", value := "10",
        description := "Age ≥ 10" }],
    required_documents := ["aadhaar"],
    approval_rate := mkRat 95 100 }

def sukanya_samriddhi : Scheme :=
  { scheme_id := "sukanya_samriddhi", name := "Sukanya Samriddhi Yojana",
    category := "girl_child",
    benefit_amount := 250000,
    eligibility_rules := [
      { rule_id := "ssy_1", rule_type := .has_daughters, condition := "==", value := "true",
        description := "Must have at least one daughter" },
      { rule_id := "ssy_2", rule_type := .custom, condition := "child_age_max", value := "10",
        description := "Daughter's age ≤ 10" }],
    required_documents := ["aadhaar", "birth_certificate", "bank_statement"],
    approval_rate := mkRat 90 100,
    conflicts_with := ["beti_bachao"] }

def beti_bachao : Scheme :=
  { scheme_id := "beti_bachao", name := "Beti Bachao Beti Padhao", category := "girl_child",
    benefit_amount := 50000,
    eligibility_rules := [
      { rule_id := "bb_1", rule_type := .has_daughters, condition := "==", value := "true",
        description := "Must have at least one daughter" }],
    required_documents := ["aadhaar", "birth_certificate", "income_certificate"],
    approval_rate := mkRat 75 100,
    conflicts_with := ["sukanya_samriddhi"] }

def pm_matru_vandana : Scheme :=
  { scheme_id := "pm_matru_vandana", name := "Pradhan Mantri Matru Vandana Yojana",
    category := "maternity",
    benefit_amount := 5000,
    eligibility_rules := [
      { rule_id := "mv_1", rule_type := .gender, condition := "==", value := "female",
        description := "Must be female" },
      { rule_id := "mv_2", rule_type := .pregnant, condition := "==", value := "true",
        description := "Must be pregnant or lactating" },
      { rule_id := "mv_3", rule_type := .age_min, condition := ">=", value := "19",
        description := "Age ≥ 19" }],
    required_documents := ["aadhaar", "bank_statement", "income_certificate"],
    approval_rate := mkRat 78 100 }

def nsap_pension : Scheme :=
  { scheme_id := "nsap_pension", name := "Indira Gandhi National Old Age Pension",
    category := "pension",
    benefit_amount := 6000,
    eligibility_rules := [
      { rule_id := "nsap_1", rule_type := .age_min, condition := ">=", value := "60",
        description := "Age ≥ 60" },
      { rule_id := "nsap_2", rule_type := .bpl, condition := "==", value := "true",
        description := "Must belong to BPL household" }],
    required_documents := ["aadhaar", "bpl_card", "bank_statement", "income_certificate"],
    approval_rate := mkRat 70 100 }

def atal_pension : Scheme :=
  { scheme_id := "atal_pension", name := "Atal Pension Yojana", category := "pension",
    benefit_amount := 60000,
    eligibility_rules := [
      { rule_id := "apy_1", rule_type := .age_min, condition := ">=", value := "18",
        description := "Age ≥ 18" },
      { rule_id := "apy_2", rule_type := .age_max, condition := "<=", value := "40",
        description := "Age ≤ 40" },
      { rule_id := "apy_3", rule_type := .income_max, condition := "<=", value := "180000",
        description := "Annual income ≤ ₹1.8 lakh (tax-exempt)" }],
    required_documents := ["aadhaar", "bank_statement"],
    approval_rate := mkRat 88 100 }

def national_scholarship : Scheme :=
  { scheme_id := "national_scholarship",
    name := "National Scholarship Portal — Post-Matric Scholarship",
    category := "scholarship",
    benefit_amount := 36000,
    eligibility_rules := [
      { rule_id := "nsp_1", rule_type := .caste, condition := "in", value := "sc,st,obc",
        description := "Must be SC/ST/OBC" },
      { rule_id := "nsp_2", rule_type := .education_min, condition := ">=",
        value := "higher_secondary", description := "Completed higher secondary" },
      { rule_id := "nsp_3", rule_type := .income_max, condition := "<=", value := "250000",
        description := "Family income ≤ ₹2.5 lakh" }],
    required_documents := ["aadhaar", "caste_certificate", "income_certificate",
      "educational_certificate", "bank_statement"],
    approval_rate := mkRat 72 100 }

def ayushman_bharat : Scheme :=
  { scheme_id := "ayushman_bharat", name := "Ayushman Bharat — PM Jan Arogya Yojana",
    category := "healthcare",
    benefit_amount := 500000,
    eligibility_rules := [
      { rule_id := "ab_1", rule_type := .bpl, condition := "==", value := "true",
        description := "BPL or deprived household" },
      { rule_id := "ab_2", rule_type := .income_max, condition := "<=", value := "300000",
        description := "Annual income ≤ ₹3 lakh" }],
    required_documents := ["aadhaar", "ration_card", "income_certificate"],
    approval_rate := mkRat 82 100 }

def mudra_loan : Scheme :=
  { scheme_id := "mudra_loan", name := "Pradhan Mantri Mudra Yojana",
    category := "entrepreneurship",
    benefit_amount := 1000000,
    eligibility_rules := [
      { rule_id := "mud_1", rule_type := .age_min, condition := ">=", value := "18",
        description := "Age ≥ 18" },
      { rule_id := "mud_2", rule_type := .occupation, condition := "in",
        value := "self_employed,farmer", description := "Self-employed or micro-enterprise" }],
    required_documents := ["aadhaar", "pan", "bank_statement", "income_certificate"],
    approval_rate := mkRat 68 100 }

def disability_pension : Scheme :=
  { scheme_id := "disability_pension", name := "Indira Gandhi National Disability Pension",
    category := "disability",
    benefit_amount := 3600,
    eligibility_rules := [
      { rule_id := "dp_1", rule_type := .disability, condition := "==", value := "true",
        description := "Must have ≥80% disability" },
      { rule_id := "dp_2", rule_type := .age_min, condition := ">=", value := "18",
        description := "Age ≥ 18" },
      { rule_id := "dp_3", rule_type := .age_max, condition := "<=", value := "79",
        description := "Age ≤ 79" },
      { rule_id := "dp_4", rule_type := .bpl, condition := "==", value := "true",
        description := "BPL household" }],
    required_documents := ["aadhaar", "disability_certificate", "bpl_card", "bank_statement"],
    approval_rate := mkRat 72 100 }

def nfsa_ration : Scheme :=
  { scheme_id := "nfsa_ration", name := "National Food Security Act — Subsidized Ration",
    category := "food_security",
    benefit_amount := 7200,
    eligibility_rules := [
      { rule_id := "nfsa_1", rule_type := .bpl, condition := "==", value := "true",
        description := "BPL household" }],
    required_documents := ["aadhaar", "ration_card", "income_certificate"],
    approval_rate := mkRat 88 100 }

def standup_india : Scheme :=
  { scheme_id := "standup_india", name := "Stand-Up India Scheme",
    category := "entrepreneurship",
    benefit_amount := 10000000,
    eligibility_rules := [
      { rule_id := "sui_1", rule_type := .age_min, condition := ">=", value := "18",
        description := "Age ≥ 18" },
      { rule_id := "sui_2", rule_type := .custom, condition := "sc_st_or_female",
        value := "true", description := "Must be SC/ST or female" }],
    required_documents := ["aadhaar", "pan", "caste_certificate", "bank_statement",
      "income_certificate"],
    approval_rate := mkRat 55 100,
    depends_on := ["pm_jan_dhan"] }

def pm_fasal_bima : Scheme :=
  { scheme_id := "pm_fasal_bima", name := "Pradhan Mantri Fasal Bima Yojana",
    category := "insurance",
    benefit_amount := 200000,
    eligibility_rules := [
      { rule_id := "pfb_1", rule_type := .occupation, condition := "==", value := "farmer",
        description := "Must be a farmer" }],
    required_documents := ["aadhaar", "bank_statement", "income_certificate"],
    approval_rate := mkRat 80 100,
    depends_on := ["pm_kisan"] }

def SCHEMES : List Scheme :=
  [pm_kisan, pm_ujjwala, pmay, pm_jan_dhan, sukanya_samriddhi, beti_bachao,
   pm_matru_vandana, nsap_pension, atal_pension, national_scholarship,
   ayushman_bharat, mudra_loan, disability_pension, nfsa_ration,
   standup_india, pm_fasal_bima]

/-- `SCHEME_MAP.get(sid)`: lookup by scheme id (ids are unique in the
catalog, so dict lookup and first-match lookup agree). -/
def SCHEME_MAP_get (sid : String) : Option Scheme :=
  SCHEMES.find? (fun s => s.scheme_id == sid)

/-- `cid in SCHEME_MAP`. -/
def SCHEME_MAP_contains (sid : String) : Bool :=
  (SCHEME_MAP_get sid).isSome

/-! ## Knowledge graph (`backend/knowledge/graph.py`)

`nx.DiGraph` is modelled as an ordered node list plus an ordered edge list
with at most one edge per `(src, dst)` pair (NetworkX overwrites the edge
attributes when the same directed pair is added again, and adds missing
endpoints as nodes).  `predecessors`/`successors` raise `NetworkXError` when
the queried node is absent, exactly as NetworkX does. -/

structure Edge where
  src : String
  dst : String
  relation : String
deriving DecidableEq, Repr

structure Graph where
  nodes : List String := []
  edges : List Edge := []
deriving DecidableEq, Repr

/-- Insert a node at the end of the node list unless already present
(`nx.add_node`: re-adding an existing node keeps its position).  A single
left-to-right pass, so closed evaluations stay shallow. -/
def insertNode : List String → String → List String
  | [], n => [n]
  | m :: rest, n => if m == n then m :: rest else m :: insertNode rest n

/-- Insert a directed edge, overwriting the attributes when the `(src, dst)`
pair already exists (`nx.add_edge` semantics). -/
def insertEdge : List Edge → Edge → List Edge
  | [], e => [e]
  | e' :: rest, e =>
    if e'.src == e.src && e'.dst == e.dst then { e' with relation := e.relation } :: rest
    else e' :: insertEdge rest e

def Graph.addNode (g : Graph) (n : String) : Graph :=
  { g with nodes := insertNode g.nodes n }

/-- `nx.add_edge(u, v, relation=rel)`: adds missing endpoints as nodes. -/
def Graph.addEdge (g : Graph) (u v rel : String) : Graph :=
  { nodes := insertNode (insertNode g.nodes u) v,
    edges := insertEdge g.edges (Edge.mk u v rel) }

def Graph.has_node (g : Graph) (n : String) : Bool := g.nodes.contains n

/-- `graph.predecessors(n)` — raises `NetworkXError` when `n` is absent. -/
def Graph.predecessors (g : Graph) (n : String) : Except PyError (List String) :=
  if g.nodes.contains n then .ok ((g.edges.filter (fun e => e.dst == n)).map (·.src))
  else .error .networkxError

/-- `graph.successors(n)` — raises `NetworkXError` when `n` is absent. -/
def Graph.successors (g : Graph) (n : String) : Except PyError (List String) :=
  if g.nodes.contains n then .ok ((g.edges.filter (fun e => e.src == n)).map (·.dst))
  else .error .networkxError

/-- `graph.get_edge_data(u, v)`, restricted to the `relation` attribute. -/
def Graph.get_edge_data (g : Graph) (u v : String) : Option String :=
  (g.edges.find? (fun e => e.src == u && e.dst == v)).map (·.relation)

/-- Membership test a catalog-parameterised `SCHEME_MAP` would give
(`SCHEME_MAP` is the dict built from the same catalog). -/
def catalogContains (catalog : List Scheme) (sid : String) : Bool :=
  (catalog.find? (fun s => s.scheme_id == sid)).isSome

def catalogFind (catalog : List Scheme) (sid : String) : Option Scheme :=
  catalog.find? (fun s => s.scheme_id == sid)

def buildSchemeNodes (g : Graph) (scheme : Scheme) : Graph :=
  let g1 := g.addNode scheme.scheme_id
  let g2 := scheme.eligibility_rules.foldl
    (fun acc rule =>
      (acc.addNode ("rule_" ++ rule.rule_id)).addEdge scheme.scheme_id
        ("rule_" ++ rule.rule_id) "REQUIRES") g1
  let g3 := scheme.required_documents.foldl
    (fun acc doc => (acc.addNode ("doc_" ++ doc)).addEdge scheme.scheme_id
        ("doc_" ++ doc) "NEEDS_DOCUMENT") g2
  g3

def buildSchemeDeps (catalog : List Scheme) (g : Graph) (scheme : Scheme) : Graph :=
  let g4 := scheme.depends_on.foldl
    (fun acc dep_id =>
      if catalogContains catalog dep_id then
        acc.addEdge scheme.scheme_id dep_id "DEPENDS_ON"
      else acc) g
  scheme.conflicts_with.foldl
    (fun acc conflict_id =>
      if catalogContains catalog conflict_id then
        (acc.addEdge scheme.scheme_id conflict_id "CONFLICTS_WITH").addEdge
          conflict_id scheme.scheme_id "CONFLICTS_WITH"
      else acc) g4

/-- `SchemeGraph._build`: one deterministic pass over the catalog. -/
def buildGraph (catalog : List Scheme) : Graph :=
  catalog.foldl (fun g s => buildSchemeDeps catalog (buildSchemeNodes g s) s) {}

/-- The process-wide graph (`SchemeGraph()`), as the explicit literal the
build pass produces; `theGraph_eq_build` below proves it equals
`buildGraph SCHEMES`.  Keeping the literal makes every later concrete run
over the graph cheap to evaluate in the kernel. -/
def theGraph : Graph :=
  { nodes := ["pm_kisan", "rule_pmk_1", "rule_pmk_2", "doc_aadhaar", "doc_bank_statement",
      "doc_income_certificate", "pm_ujjwala", "rule_uj_1", "rule_uj_2", "rule_uj_3",
      "doc_bpl_card", "pmay", "rule_pmay_1", "rule_pmay_2", "pm_jan_dhan", "rule_jdy_1",
      "sukanya_samriddhi", "rule_ssy_1", "rule_ssy_2", "doc_birth_certificate",
      "beti_bachao", "rule_bb_1", "pm_matru_vandana", "rule_mv_1", "rule_mv_2",
      "rule_mv_3", "nsap_pension", "rule_nsap_1", "rule_nsap_2", "atal_pension",
      "rule_apy_1", "rule_apy_2", "rule_apy_3", "national_scholarship", "rule_nsp_1",
      "rule_nsp_2", "rule_nsp_3", "doc_caste_certificate", "doc_educational_certificate",
      "ayushman_bharat", "rule_ab_1", "rule_ab_2", "doc_ration_card", "mudra_loan",
      "rule_mud_1", "rule_mud_2", "doc_pan", "disability_pension", "rule_dp_1",
      "rule_dp_2", "rule_dp_3", "rule_dp_4", "doc_disability_certificate", "nfsa_ration",
      "rule_nfsa_1", "standup_india", "rule_sui_1", "rule_sui_2", "pm_fasal_bima",
      "rule_pfb_1"],
    edges := [
    Edge.mk "pm_kisan" "rule_pmk_1" "REQUIRES",
    Edge.mk "pm_kisan" "rule_pmk_2" "REQUIRES",
    Edge.mk "pm_kisan" "doc_aadhaar" "NEEDS_DOCUMENT",
    Edge.mk "pm_kisan" "doc_bank_statement" "NEEDS_DOCUMENT",
    Edge.mk "pm_kisan" "doc_income_certificate" "NEEDS_DOCUMENT",
    Edge.mk "pm_ujjwala" "rule_uj_1" "REQUIRES",
    Edge.mk "pm_ujjwala" "rule_uj_2" "REQUIRES",
    Edge.mk "pm_ujjwala" "rule_uj_3" "REQUIRES",
    Edge.mk "pm_ujjwala" "doc_aadhaar" "NEEDS_DOCUMENT",
    Edge.mk "pm_ujjwala" "doc_bpl_card" "NEEDS_DOCUMENT",
    Edge.mk "pm_ujjwala" "doc_bank_statement" "NEEDS_DOCUMENT",
    Edge.mk "pmay" "rule_pmay_1" "REQUIRES",
    Edge.mk "pmay" "rule_pmay_2" "REQUIRES",
    Edge.mk "pmay" "doc_aadhaar" "NEEDS_DOCUMENT",
    Edge.mk "pmay" "doc_income_certificate" "NEEDS_DOCUMENT",
    Edge.mk "pmay" "doc_bpl_card" "NEEDS_DOCUMENT",
    Edge.mk "pmay" "doc_bank_statement" "NEEDS_DOCUMENT",
    Edge.mk "pmay" "pm_jan_dhan" "DEPENDS_ON",
    Edge.mk "pm_jan_dhan" "rule_jdy_1" "REQUIRES",
    Edge.mk "pm_jan_dhan" "doc_aadhaar" "NEEDS_DOCUMENT",
    Edge.mk "sukanya_samriddhi" "rule_ssy_1" "REQUIRES",
    Edge.mk "sukanya_samriddhi" "rule_ssy_2" "REQUIRES",
    Edge.mk "sukanya_samriddhi" "doc_aadhaar" "NEEDS_DOCUMENT",
    Edge.mk "sukanya_samriddhi" "doc_birth_certificate" "NEEDS_DOCUMENT",
    Edge.mk "sukanya_samriddhi" "doc_bank_statement" "NEEDS_DOCUMENT",
    Edge.mk "sukanya_samriddhi" "beti_bachao" "CONFLICTS_WITH",
    Edge.mk "beti_bachao" "sukanya_samriddhi" "CONFLICTS_WITH",
    Edge.mk "beti_bachao" "rule_bb_1" "REQUIRES",
    Edge.mk "beti_bachao" "doc_aadhaar" "NEEDS_DOCUMENT",
    Edge.mk "beti_bachao" "doc_birth_certificate" "NEEDS_DOCUMENT",
    Edge.mk "beti_bachao" "doc_income_certificate" "NEEDS_DOCUMENT",
    Edge.mk "pm_matru_vandana" "rule_mv_1" "REQUIRES",
    Edge.mk "pm_matru_vandana" "rule_mv_2" "REQUIRES",
    Edge.mk "pm_matru_vandana" "rule_mv_3" "REQUIRES",
    Edge.mk "pm_matru_vandana" "doc_aadhaar" "NEEDS_DOCUMENT",
    Edge.mk "pm_matru_vandana" "doc_bank_statement" "NEEDS_DOCUMENT",
    Edge.mk "pm_matru_vandana" "doc_income_certificate" "NEEDS_DOCUMENT",
    Edge.mk "nsap_pension" "rule_nsap_1" "REQUIRES",
    Edge.mk "nsap_pension" "rule_nsap_2" "REQUIRES",
    Edge.mk "nsap_pension" "doc_aadhaar" "NEEDS_DOCUMENT",
    Edge.mk "nsap_pension" "doc_bpl_card" "NEEDS_DOCUMENT",
    Edge.mk "nsap_pension" "doc_bank_statement" "NEEDS_DOCUMENT",
    Edge.mk "nsap_pension" "doc_income_certificate" "NEEDS_DOCUMENT",
    Edge.mk "atal_pension" "rule_apy_1" "REQUIRES",
    Edge.mk "atal_pension" "rule_apy_2" "REQUIRES",
    Edge.mk "atal_pension" "rule_apy_3" "REQUIRES",
    Edge.mk "atal_pension" "doc_aadhaar" "NEEDS_DOCUMENT",
    Edge.mk "atal_pension" "doc_bank_statement" "NEEDS_DOCUMENT",
    Edge.mk "national_scholarship" "rule_nsp_1" "REQUIRES",
    Edge.mk "national_scholarship" "rule_nsp_2" "REQUIRES",
    Edge.mk "national_scholarship" "rule_nsp_3" "REQUIRES",
    Edge.mk "national_scholarship" "doc_aadhaar" "NEEDS_DOCUMENT",
    Edge.mk "national_scholarship" "doc_caste_certificate" "NEEDS_DOCUMENT",
    Edge.mk "national_scholarship" "doc_income_certificate" "NEEDS_DOCUMENT",
    Edge.mk "national_scholarship" "doc_educational_certificate" "NEEDS_DOCUMENT",
    Edge.mk "national_scholarship" "doc_bank_statement" "NEEDS_DOCUMENT",
    Edge.mk "ayushman_bharat" "rule_ab_1" "REQUIRES",
    Edge.mk "ayushman_bharat" "rule_ab_2" "REQUIRES",
    Edge.mk "ayushman_bharat" "doc_aadhaar" "NEEDS_DOCUMENT",
    Edge.mk "ayushman_bharat" "doc_ration_card" "NEEDS_DOCUMENT",
    Edge.mk "ayushman_bharat" "doc_income_certificate" "NEEDS_DOCUMENT",
    Edge.mk "mudra_loan" "rule_mud_1" "REQUIRES",
    Edge.mk "mudra_loan" "rule_mud_2" "REQUIRES",
    Edge.mk "mudra_loan" "doc_aadhaar" "NEEDS_DOCUMENT",
    Edge.mk "mudra_loan" "doc_pan" "NEEDS_DOCUMENT",
    Edge.mk "mudra_loan" "doc_bank_statement" "NEEDS_DOCUMENT",
    Edge.mk "mudra_loan" "doc_income_certificate" "NEEDS_DOCUMENT",
    Edge.mk "disability_pension" "rule_dp_1" "REQUIRES",
    Edge.mk "disability_pension" "rule_dp_2" "REQUIRES",
    Edge.mk "disability_pension" "rule_dp_3" "REQUIRES",
    Edge.mk "disability_pension" "rule_dp_4" "REQUIRES",
    Edge.mk "disability_pension" "doc_aadhaar" "NEEDS_DOCUMENT",
    Edge.mk "disability_pension" "doc_disability_certificate" "NEEDS_DOCUMENT",
    Edge.mk "disability_pension" "doc_bpl_card" "NEEDS_DOCUMENT",
    Edge.mk "disability_pension" "doc_bank_statement" "NEEDS_DOCUMENT",
    Edge.mk "nfsa_ration" "rule_nfsa_1" "REQUIRES",
    Edge.mk "nfsa_ration" "doc_aadhaar" "NEEDS_DOCUMENT",
    Edge.mk "nfsa_ration" "doc_ration_card" "NEEDS_DOCUMENT",
    Edge.mk "nfsa_ration" "doc_income_certificate" "NEEDS_DOCUMENT",
    Edge.mk "standup_india" "rule_sui_1" "REQUIRES",
    Edge.mk "standup_india" "rule_sui_2" "REQUIRES",
    Edge.mk "standup_india" "doc_aadhaar" "NEEDS_DOCUMENT",
    Edge.mk "standup_india" "doc_pan" "NEEDS_DOCUMENT",
    Edge.mk "standup_india" "doc_caste_certificate" "NEEDS_DOCUMENT",
    Edge.mk "standup_india" "doc_bank_statement" "NEEDS_DOCUMENT",
    Edge.mk "standup_india" "doc_income_certificate" "NEEDS_DOCUMENT",
    Edge.mk "standup_india" "pm_jan_dhan" "DEPENDS_ON",
    Edge.mk "pm_fasal_bima" "rule_pfb_1" "REQUIRES",
    Edge.mk "pm_fasal_bima" "doc_aadhaar" "NEEDS_DOCUMENT",
    Edge.mk "pm_fasal_bima" "doc_bank_statement" "NEEDS_DOCUMENT",
    Edge.mk "pm_fasal_bima" "doc_income_certificate" "NEEDS_DOCUMENT",
    Edge.mk "pm_fasal_bima" "pm_kisan" "DEPENDS_ON"] }

/-- The startup graph construction produces exactly `theGraph`. -/
theorem theGraph_eq_build : buildGraph SCHEMES = theGraph := by decide

/-! ## Rule evaluator (`SchemeGraph.evaluate_rule`) -/

/-- `_EDU_ORDER.get(key, 0)`: the fixed 7-level education ladder. -/
def EDU_ORDER_get (s : String) : ℕ :=
  if s = "none" then 0
  else if s = "primary" then 1
  else if s = "secondary" then 2
  else if s = "higher_secondary" then 3
  else if s = "graduate" then 4
  else if s = "post_graduate" then 5
  else if s = "doctorate" then 6
  else 0

/-- `citizen.age or 0`. -/
def ageOrZero (c : CitizenProfile) : ℤ := c.age.getD 0

/-- `SchemeGraph.evaluate_rule(rule, citizen)`.  A malformed numeric rule
value makes `int(...)`/`float(...)` raise `ValueError`, modelled as
`Except.error .valueError`. -/
def evaluate_rule (rule : EligibilityRule) (citizen : CitizenProfile) :
    Except PyError Bool :=
  match rule.rule_type with
  | .age_min =>
    match pyInt rule.value with
    | none => .error .valueError
    | some v => .ok (decide (ageOrZero citizen ≥ v))
  | .age_max =>
    match pyInt rule.value with
    | none => .error .valueError
    | some v => .ok (decide (ageOrZero citizen ≤ v))
  | .income_max =>
    match pyFloat rule.value with
    | none => .error .valueError
    | some v => .ok (decide (citizen.annual_income ≤ v))
  | .gender => .ok (citizen.gender == rule.value)
  | .caste =>
    .ok (((pySplit ',' rule.value).map pyStrip).contains citizen.caste_category)
  | .state => .ok (pyLower citizen.address.state == pyLower rule.value)
  | .occupation =>
    .ok (((pySplit ',' rule.value).map pyStrip).contains citizen.occupation)
  | .education_min =>
    .ok (decide (EDU_ORDER_get citizen.education ≥ EDU_ORDER_get rule.value))
  | .education_max =>
    .ok (decide (EDU_ORDER_get citizen.education ≤ EDU_ORDER_get rule.value))
  | .bpl => .ok citizen.is_bpl
  | .disability => .ok citizen.is_disabled
  | .pregnant => .ok citizen.is_pregnant
  | .has_children => .ok (decide (citizen.num_children > 0))
  | .has_daughters => .ok (decide (citizen.num_daughters > 0))
  | .minority => .ok citizen.is_minority
  | .custom =>
    if rule.condition = "child_age_max" then
      -- `any(...)` evaluates `int(val)` lazily: only raised once a child
      -- family member is reached by the generator.
      if citizen.family_members.any (fun m => m.relationship == "child") then
        match pyInt rule.value with
        | none => .error .valueError
        | some v =>
          .ok (citizen.family_members.any
            (fun m => m.relationship == "child" && decide (m.age ≤ v)))
      else .ok false
    else if rule.condition = "sc_st_or_female" then
      .ok (citizen.caste_category == "sc" || citizen.caste_category == "st" ||
        citizen.gender == "female")
    else .ok false

/-! ## Benefit-chain traversal (`SchemeGraph.find_benefit_chain`) -/

/-- The inner predecessor scan of one frontier node: collects not-yet-visited
predecessors connected by a `DEPENDS_ON` edge into `visited`, `dependents`
and `next_frontier` (in that iteration order). -/
def addPreds (g : Graph) (current : String) :
    List String → List String → List String → List String →
    List String × List String × List String
  | [], visited, dependents, next_frontier => (visited, dependents, next_frontier)
  | p :: ps, visited, dependents, next_frontier =>
    if g.get_edge_data p current == some "DEPENDS_ON" && !(visited.contains p) then
      addPreds g current ps (p :: visited) (dependents ++ [p]) (next_frontier ++ [p])
    else addPreds g current ps visited dependents next_frontier

/-- One hop of the backward walk: scan every frontier node in order. -/
def processFrontier (g : Graph) :
    List String → List String → List String → List String →
    Except PyError (List String × List String × List String)
  | [], visited, dependents, next_frontier => .ok (visited, dependents, next_frontier)
  | cur :: rest, visited, dependents, next_frontier =>
    match g.predecessors cur with
    | .error e => .error e
    | .ok preds =>
      let t := addPreds g cur preds visited dependents next_frontier
      processFrontier g rest t.1 t.2.1 t.2.2

/-- The `for _ in range(max_hops)` loop with early exit on an empty frontier. -/
def chainLoop (g : Graph) :
    ℕ → List String → List String → List String → Except PyError (List String)
  | 0, _, _, dependents => .ok dependents
  | hops + 1, frontier, visited, dependents =>
    match processFrontier g frontier visited dependents [] with
    | .error e => .error e
    | .ok (v, d, next_frontier) =>
      if next_frontier.isEmpty then .ok d
      else chainLoop g hops next_frontier v d

/-- `SchemeGraph.find_benefit_chain(scheme_id, max_hops=5)`. -/
def find_benefit_chain (g : Graph) (scheme_id : String) (max_hops : ℕ := 5) :
    Except PyError (List String) :=
  chainLoop g max_hops [scheme_id] [scheme_id] []

/-! ## Conflict detection (`SchemeGraph.detect_conflicts`) -/

/-- `tuple(sorted((sid, neighbor)))`. -/
def sortedPair (a b : String) : String × String :=
  if pyStrLt b a then (b, a) else (a, b)

def scanNeighbors (g : Graph) (sid : String) (scheme_ids : List String) :
    List String → List (String × String) → List (String × String) →
    List (String × String) × List (String × String)
  | [], conflicts, checked => (conflicts, checked)
  | nb :: rest, conflicts, checked =>
    if g.get_edge_data sid nb == some "CONFLICTS_WITH" && scheme_ids.contains nb then
      if checked.contains (sortedPair sid nb) then
        scanNeighbors g sid scheme_ids rest conflicts checked
      else
        scanNeighbors g sid scheme_ids rest (conflicts ++ [sortedPair sid nb])
          (sortedPair sid nb :: checked)
    else scanNeighbors g sid scheme_ids rest conflicts checked

def detectLoop (g : Graph) (scheme_ids : List String) :
    List String → List (String × String) → List (String × String) →
    Except PyError (List (String × String))
  | [], conflicts, _checked => .ok conflicts
  | sid :: rest, conflicts, checked =>
    match g.successors sid with
    | .error e => .error e
    | .ok neighbors =>
      let t := scanNeighbors g sid scheme_ids neighbors conflicts checked
      detectLoop g scheme_ids rest t.1 t.2

/-- `SchemeGraph.detect_conflicts(scheme_ids)`. -/
def detect_conflicts (g : Graph) (scheme_ids : List String) :
    Except PyError (List (String × String)) :=
  detectLoop g scheme_ids scheme_ids [] []

/-! ## Discovery & ranking (`SchemeGraph.discover_schemes`) -/

/-- `rule.description or rule.rule_id` (Python `or` on strings: the empty
string is falsy). -/
def descriptionOrId (r : EligibilityRule) : String :=
  if r.description.isEmpty then r.rule_id else r.description

/-- The per-scheme rule loop: partition rules into matched / failed
description lists, propagating the first evaluation exception. -/
def eval_rules_loop (citizen : CitizenProfile) :
    List EligibilityRule → List String → List String →
    Except PyError (List String × List String)
  | [], matched, failed => .ok (matched, failed)
  | r :: rest, matched, failed =>
    match evaluate_rule r citizen with
    | .error e => .error e
    | .ok true => eval_rules_loop citizen rest (matched ++ [descriptionOrId r]) failed
    | .ok false => eval_rules_loop citizen rest matched (failed ++ [descriptionOrId r])

/-- The body of the `for scheme in SCHEMES` loop of `discover_schemes`:
build one `SchemeMatch` for one scheme. -/
def build_match (g : Graph) (catalog : List Scheme) (citizen : CitizenProfile)
    (scheme : Scheme) : Except PyError SchemeMatch :=
  match eval_rules_loop citizen scheme.eligibility_rules [] [] with
  | .error e => .error e
  | .ok (matched, failed) =>
    let total := scheme.eligibility_rules.length
    let score : ℚ := if total = 0 then 1 else pyDiv (matched.length : ℚ) ((total : ℕ) : ℚ)
    let is_eligible := failed.isEmpty
    let missing := scheme.required_documents.filter
      (fun d => !(citizen.documents.contains d))
    let conflicts := scheme.conflicts_with.filterMap
      (fun cid => (catalogFind catalog cid).map (·.name))
    match find_benefit_chain g scheme.scheme_id 5 with
    | .error e => .error e
    | .ok unlock_ids =>
      let approval_prob := pyMul score scheme.approval_rate
      .ok { scheme := scheme,
            eligibility_score := pyRound score 2,
            matched_rules := matched,
            failed_rules := failed,
            missing_documents := missing,
            estimated_benefit := scheme.benefit_amount,
            approval_probability := pyRound approval_prob 2,
            is_eligible := is_eligible,
            conflicts := conflicts,
            unlocks := unlock_ids.filterMap
              (fun uid => (catalogFind catalog uid).map (·.name)) }

/-- The per-scheme loop with exception propagation (`map` in `Except`). -/
def map_except (f : α → Except ε β) : List α → Except ε (List β)
  | [] => .ok []
  | a :: rest =>
    match f a with
    | .error e => .error e
    | .ok b =>
      match map_except f rest with
      | .error e => .error e
      | .ok bs => .ok (b :: bs)

/-- The sort key value `m.estimated_benefit * m.approval_probability`. -/
def sort_key_val (m : SchemeMatch) : ℚ := pyMul m.estimated_benefit m.approval_probability

/-- The comparator realising `matches.sort(key=lambda m: (m.is_eligible,
m.estimated_benefit * m.approval_probability), reverse=True)`: `m₁` may be
placed before `m₂` iff its key tuple is lexicographically ≥ (`True > False`
on the eligibility flag).  Python's sort is stable; a stable sort under this
total preorder is exactly what `List.insertionSort` computes. -/
def rank_before_b (m₁ m₂ : SchemeMatch) : Bool :=
  if m₁.is_eligible = m₂.is_eligible then decide (sort_key_val m₂ ≤ sort_key_val m₁)
  else m₁.is_eligible

def matchGe (m₁ m₂ : SchemeMatch) : Prop := rank_before_b m₁ m₂ = true

instance : DecidableRel matchGe := fun _ _ => instDecidableEqBool _ _

instance : IsTotal SchemeMatch matchGe where
  total m₁ m₂ := by
    simp only [matchGe, rank_before_b]
    by_cases h : m₁.is_eligible = m₂.is_eligible
    · rw [if_pos h, if_pos h.symm]
      rcases le_total (sort_key_val m₂) (sort_key_val m₁) with hle | hle
      · exact Or.inl (decide_eq_true hle)
      · exact Or.inr (decide_eq_true hle)
    · rw [if_neg h, if_neg (fun hh => h hh.symm)]
      rcases Bool.eq_false_or_eq_true m₁.is_eligible with e₁ | e₁
      · exact Or.inl e₁
      · rcases Bool.eq_false_or_eq_true m₂.is_eligible with e₂ | e₂
        · exact Or.inr e₂
        · exact absurd (e₁.trans e₂.symm) h

instance : IsTrans SchemeMatch matchGe where
  trans m₁ m₂ m₃ h₁₂ h₂₃ := by
    simp only [matchGe, rank_before_b] at *
    by_cases h12 : m₁.is_eligible = m₂.is_eligible
    · by_cases h23 : m₂.is_eligible = m₃.is_eligible
      · rw [if_pos h12] at h₁₂
        rw [if_pos h23] at h₂₃
        rw [if_pos (h12.trans h23)]
        exact decide_eq_true (le_trans (of_decide_eq_true h₂₃) (of_decide_eq_true h₁₂))
      · rw [if_neg h23] at h₂₃
        rw [if_neg (fun hh => h23 (h12.symm.trans hh))]
        exact h12.trans h₂₃
    · rw [if_neg h12] at h₁₂
      by_cases h13 : m₁.is_eligible = m₃.is_eligible
      · exfalso
        have hm2 : m₂.is_eligible = false := by
          rcases Bool.eq_false_or_eq_true m₂.is_eligible with e | e
          · exact absurd (h₁₂.trans e.symm) h12
          · exact e
        have h23ne : m₂.is_eligible ≠ m₃.is_eligible := by
          rw [hm2, ← h13, h₁₂]
          exact Bool.false_ne_true
        rw [if_neg h23ne, hm2] at h₂₃
        exact Bool.false_ne_true h₂₃
      · rw [if_neg h13]
        exact h₁₂

/-- `for i, m in enumerate(matches): m.rank = i + 1`. -/
def assign_ranks_from (i : ℕ) : List SchemeMatch → List SchemeMatch
  | [] => []
  | m :: rest => { m with rank := i + 1 } :: assign_ranks_from (i + 1) rest

def assign_ranks (l : List SchemeMatch) : List SchemeMatch := assign_ranks_from 0 l

/-- `SchemeGraph.discover_schemes`, generalised over the catalog the module
was loaded with and the graph the `SchemeGraph` instance built from it at
startup (the shipped program uses `SCHEMES` and `theGraph`). -/
def discover_schemes_over (catalog : List Scheme) (g : Graph) (citizen : CitizenProfile) :
    Except PyError (List SchemeMatch) :=
  match map_except (build_match g catalog citizen) catalog with
  | .error e => .error e
  | .ok ms => .ok (assign_ranks (ms.insertionSort matchGe))

/-- `SchemeGraph.discover_schemes(citizen)` on the shipped catalog. -/
def discover_schemes (citizen : CitizenProfile) : Except PyError (List SchemeMatch) :=
  discover_schemes_over SCHEMES theGraph citizen

/-! ## Rule-based risk scorer (`backend/engine/validation.py`) -/

structure RejectionPattern where
  id : String
  name : String
  weight : ℚ
deriving DecidableEq, Repr

/-- `REJECTION_PATTERNS` (the `description` strings are not modelled). -/
def REJECTION_PATTERNS : List RejectionPattern :=
  [{ id := "incomplete_docs", name := "Incomplete Documentation", weight := mkRat 30 100 },
   { id := "income_mismatch", name := "Income Certificate Mismatch", weight := mkRat 20 100 },
   { id := "aadhaar_bank_mismatch", name := "Aadhaar-Bank Name Mismatch", weight := mkRat 15 100 },
   { id := "address_mismatch", name := "Address / Domicile Mismatch", weight := mkRat 10 100 },
   { id := "age_boundary", name := "Age Boundary Issue", weight := mkRat 10 100 },
   { id := "duplicate_application", name := "Duplicate Application Detected", weight := mkRat 10 100 },
   { id := "caste_cert_expired", name := "Caste Certificate Validity", weight := mkRat 5 100 }]

/-- `_check_missing_docs(citizen, scheme)`. -/
def check_missing_docs (citizen : CitizenProfile) (scheme : Scheme) : List String :=
  scheme.required_documents.filter (fun d => !(citizen.documents.contains d))

/-- The four-tier risk ladder used by both the rule-based scorer and the
ensemble re-classification (`>= 0.7` critical, `>= 0.5` high, `>= 0.3`
medium, else low). -/
def riskLevelOf (q : ℚ) : String :=
  if mkRat 7 10 ≤ q then "critical"
  else if mkRat 1 2 ≤ q then "high"
  else if mkRat 3 10 ≤ q then "medium"
  else "low"

/-- Substring helpers for Python's `"sub" in name` on strings. -/
def listStartsWith : List Char → List Char → Bool
  | [], _ => true
  | _ :: _, [] => false
  | a :: as, b :: bs => a == b && listStartsWith as bs

def listHasSub : List Char → List Char → Bool
  | sub, [] => sub.isEmpty
  | sub, c :: rest => listStartsWith sub (c :: rest) || listHasSub sub rest

def pyInStr (sub s : String) : Bool := listHasSub sub.data s.data

/-- The recommendation strings one risk factor generates
(`_generate_recommendations` loop body). -/
def recsForFactor (missing_docs : List String) (f : RiskFactor) : List String :=
  if pyInStr "Documentation" f.factor then
    missing_docs.map (fun d => "Upload your " ++ pyReplaceUnderscore d ++ " before submitting")
  else if pyInStr "Aadhaar" f.factor then
    ["Link your Aadhaar number — this is mandatory for Direct Benefit Transfer"]
  else if pyInStr "Bank" f.factor then
    ["Open a Jan Dhan account if you don\x27t have one — it\x27s zero-balance and free"]
  else if pyInStr "Income" f.factor then
    ["Ensure income certificate matches your actual declared income to avoid mismatch"]
  else if pyInStr "Age" f.factor then
    ["Submit application before your birthdate crosses the age cutoff"]
  else []

/-- `list(dict.fromkeys(recs))`: order-preserving first-occurrence dedup. -/
def dedupFirstAux : List String → List String → List String
  | [], _ => []
  | x :: rest, seen =>
    if seen.contains x then dedupFirstAux rest seen
    else x :: dedupFirstAux rest (x :: seen)

def dedupFirst (l : List String) : List String := dedupFirstAux l []

/-- `_generate_recommendations(risk_factors, missing_docs)`. -/
def generate_recommendations_raw (risk_factors : List RiskFactor)
    (missing_docs : List String) : List String :=
  dedupFirst ((risk_factors.map (recsForFactor missing_docs)).flatten)

/-- Phase 2 of the rule-based scorer: the income-near-threshold loop.
`float(rule.value)` raises on a malformed value; Python's
`x / m if m else 0` guards the division. -/
def income_risk_loop (income : ℚ) :
    List EligibilityRule → List RiskFactor → ℚ → Except PyError (List RiskFactor × ℚ)
  | [], factors, total => .ok (factors, total)
  | r :: rest, factors, total =>
    if r.rule_type.value == "income_max" then
      match pyFloat r.value with
      | none => .error .valueError
      | some max_income =>
        let ratio := if max_income == 0 then 0 else pyDiv income max_income
        if mkRat 85 100 < ratio then
          let factor_risk :=
            pyDiv (pyMul (mkRat 20 100) (min (pySub ratio (mkRat 85 100)) (mkRat 15 100)))
              (mkRat 15 100)
          income_risk_loop income rest
            (factors ++ [RiskFactor.mk "Income Near Threshold"
              (if mkRat 95 100 < ratio then "high" else "medium")
              (pyRound factor_risk 2)])
            (pyAdd total factor_risk)
        else income_risk_loop income rest factors total
    else income_risk_loop income rest factors total

/-- Phase 5 of the rule-based scorer: the age-boundary loop. -/
def age_risk_loop (age : ℤ) :
    List EligibilityRule → List RiskFactor → ℚ → Except PyError (List RiskFactor × ℚ)
  | [], factors, total => .ok (factors, total)
  | r :: rest, factors, total =>
    if r.rule_type.value == "age_min" || r.rule_type.value == "age_max" then
      match pyInt r.value with
      | none => .error .valueError
      | some limit =>
        if (age - limit).natAbs ≤ 1 then
          age_risk_loop age rest
            (factors ++ [RiskFactor.mk "Age Boundary Risk" "medium" (mkRat 8 100)])
            (pyAdd total (mkRat 8 100))
        else age_risk_loop age rest factors total
    else age_risk_loop age rest factors total

/-- Phase 5 of the rule-based scorer (age-boundary check), guarded by the
truthiness of `citizen.age` (both `None` and `0` skip it). -/
def validation_phase5 (citizen : CitizenProfile) (scheme : Scheme)
    (fs : List RiskFactor) (t : ℚ) : Except PyError (List RiskFactor × ℚ) :=
  match citizen.age with
  | some a => if a ≠ 0 then age_risk_loop a scheme.eligibility_rules fs t else .ok (fs, t)
  | none => .ok (fs, t)

/-- Phases 2–5 of the rule-based scorer, over the accumulated factor list
and risk total coming out of phase 1. -/
def validation_phases (citizen : CitizenProfile) (scheme : Scheme)
    (fs : List RiskFactor) (t : ℚ) : Except PyError (List RiskFactor × ℚ) :=
  match (if (0 : ℚ) < citizen.annual_income then
          income_risk_loop citizen.annual_income scheme.eligibility_rules fs t
         else .ok (fs, t)) with
  | .error e => .error e
  | .ok s2 =>
    let s3 : List RiskFactor × ℚ :=
      if citizen.aadhaar_number.isEmpty then
        (s2.1 ++ [RiskFactor.mk "Missing Aadhaar" "critical" (mkRat 25 100)],
          pyAdd s2.2 (mkRat 25 100))
      else s2
    let s4 : List RiskFactor × ℚ :=
      if citizen.bank_account.isEmpty then
        (s3.1 ++ [RiskFactor.mk "No Bank Account Linked" "high" (mkRat 15 100)],
          pyAdd s3.2 (mkRat 15 100))
      else s3
    validation_phase5 citizen scheme s4.1 s4.2

/-- `validation.predict_rejection(citizen, scheme)`: the rule-based risk
aggregator.  (The optional `existing_application_ids` argument is unused by
the function body and is omitted.) -/
def Validation.predict_rejection (citizen : CitizenProfile) (scheme : Scheme) :
    Except PyError RejectionAnalysis :=
  let missing := check_missing_docs citizen scheme
  let start : List RiskFactor × ℚ :=
    if missing.isEmpty then ([], 0)
    else
      let factor_risk := pyMul (mkRat 30 100)
        (pyDiv ((missing.length : ℕ) : ℚ) ((max scheme.required_documents.length 1 : ℕ) : ℚ))
      ([RiskFactor.mk "Incomplete Documentation"
          (if missing.length > 2 then "high" else "medium")
          (pyRound factor_risk 2)], factor_risk)
  match validation_phases citizen scheme start.1 start.2 with
  | .error e => .error e
  | .ok s5 =>
    let total_with_base := pyAdd s5.2 (pyMul (pySub 1 scheme.approval_rate) (mkRat 3 10))
    let total_risk := min (max total_with_base 0) 1
    .ok { rejection_probability := pyRound total_risk 2,
          risk_level := riskLevelOf total_risk,
          risk_factors := s5.1,
          recommendations := generate_recommendations_raw s5.1 missing,
          common_rejection_patterns := (REJECTION_PATTERNS.take 3).map (·.name) }

/-! ## Feature-weighted scorer (`backend/engine/rejection_model.py`) -/

/-- The `income_ratio` feature: the first `income_max` rule wins (`break`). -/
def first_income_ratio (income : ℚ) : List EligibilityRule → Except PyError ℚ
  | [] => .ok 0
  | r :: rest =>
    if r.rule_type.value == "income_max" then
      match pyFloat r.value with
      | none => .error .valueError
      | some max_val => .ok (if max_val == 0 then 0 else pyDiv income max_val)
    else first_income_ratio income rest

/-- The `age_risk` feature: no `break`, so the last age rule within distance
2 of the citizen's age wins. -/
def ml_age_risk (age : ℤ) : List EligibilityRule → ℚ → Except PyError ℚ
  | [], acc => .ok acc
  | r :: rest, acc =>
    if r.rule_type.value == "age_min" || r.rule_type.value == "age_max" then
      match pyInt r.value with
      | none => .error .valueError
      | some limit =>
        let diff := (age - limit).natAbs
        if diff ≤ 2 then ml_age_risk age rest (pySub 1 (pyMul ((diff : ℕ) : ℚ) (mkRat 3 10)))
        else ml_age_risk age rest acc
    else ml_age_risk age rest acc

/-- `_encode_features(citizen, scheme)`: the 7-dimensional feature vector. -/
def encode_features (citizen : CitizenProfile) (scheme : Scheme) :
    Except PyError (List ℚ) :=
  let missing_docs := (scheme.required_documents.filter
    (fun d => !(citizen.documents.contains d))).length
  let total_docs := scheme.required_documents.length
  let doc_completeness : ℚ :=
    if total_docs ≠ 0 then pySub 1 (pyDiv ((missing_docs : ℕ) : ℚ) ((total_docs : ℕ) : ℚ))
    else 1
  let has_aadhaar : ℚ := if citizen.aadhaar_number.isEmpty then 0 else 1
  let has_bank : ℚ := if citizen.bank_account.isEmpty then 0 else 1
  match first_income_ratio citizen.annual_income scheme.eligibility_rules with
  | .error e => .error e
  | .ok income_ratio =>
    match (match citizen.age with
           | some a => if a ≠ 0 then ml_age_risk a scheme.eligibility_rules 0 else .ok 0
           | none => .ok 0) with
    | .error e => .error e
    | .ok age_risk =>
      .ok [doc_completeness, has_aadhaar, has_bank, income_ratio, age_risk,
        scheme.approval_rate, pyDiv ((citizen.family_members.length : ℕ) : ℚ) 10]

/-- `sum(f * w for f, w in zip(features, weights))` (exact rational addition
is associative, so the fold direction does not matter). -/
def weighted_sum : List ℚ → List ℚ → ℚ
  | [], _ => 0
  | _, [] => 0
  | f :: fs, w :: ws => pyAdd (pyMul f w) (weighted_sum fs ws)

/-- `predict_rejection_probability(citizen, scheme)`; the
`random.uniform(-0.03, 0.03)` term is the explicit `noise` parameter. -/
def predict_rejection_probability (citizen : CitizenProfile) (scheme : Scheme)
    (noise : ℚ) : Except PyError ℚ :=
  match encode_features citizen scheme with
  | .error e => .error e
  | .ok features =>
    let weights : List ℚ := [mkRat 30 100, mkRat 15 100, mkRat 10 100, mkRat 15 100,
      mkRat 10 100, mkRat 15 100, mkRat 5 100]
    let positive_score := weighted_sum features weights
    let rejection_prob := max 0 (min 1 (pyAdd (pySub 1 positive_score) noise))
    .ok (pyRound rejection_prob 3)

/-! ## Adversarial agent (`backend/agents/adversarial.py`) -/

/-- `AdversarialAgent.predict_rejection(citizen, scheme_id)`:
`None` for an unknown scheme id, otherwise the 60/40 ensemble of the
rule-based analysis and the feature-weighted probability, with the risk
level re-derived from the combined score. -/
def AdversarialAgent.predict_rejection (citizen : CitizenProfile) (scheme_id : String)
    (noise : ℚ) : Except PyError (Option RejectionAnalysis) :=
  match SCHEME_MAP_get scheme_id with
  | none => .ok none
  | some scheme =>
    match Validation.predict_rejection citizen scheme with
    | .error e => .error e
    | .ok analysis =>
      match predict_rejection_probability citizen scheme noise with
      | .error e => .error e
      | .ok ml_prob =>
        let combined := pyAdd (pyMul analysis.rejection_probability (mkRat 6 10))
          (pyMul ml_prob (mkRat 4 10))
        .ok (some { analysis with
          rejection_probability := pyRound combined 2,
          risk_level := riskLevelOf combined })

/-- `AdversarialAgent.generate_recommendations(analysis)`. -/
def AdversarialAgent.generate_recommendations (analysis : RejectionAnalysis) :
    List String :=
  let recs := analysis.recommendations
  let recs :=
    if analysis.risk_level == "high" || analysis.risk_level == "critical" then
      "⚠ HIGH RISK — Address the following issues before submitting:" :: recs
    else recs
  if mkRat 1 2 < analysis.rejection_probability then
    recs ++ ["Consider applying through a Common Service Centre (CSC) for assisted form-filling"]
  else recs

/-! ## Eligibility agent (`backend/agents/eligibility.py`) -/

/-- `EligibilityAgent.verify_eligibility(citizen, scheme_id)`: `None` for an
unknown scheme id, otherwise the discovery match for that scheme. -/
def EligibilityAgent.verify_eligibility (citizen : CitizenProfile) (scheme_id : String) :
    Except PyError (Option SchemeMatch) :=
  match SCHEME_MAP_get scheme_id with
  | none => .ok none
  | some _ =>
    match discover_schemes citizen with
    | .error e => .error e
    | .ok ms => .ok (ms.find? (fun m => m.scheme.scheme_id == scheme_id))

/-! ## Claims

Each claim of the specification is settled by one theorem below (with a
witness when the theorem carries hypotheses, and a counterexample when the
claim as frozen fails on the code). -/

/-- A lookup on a node absent from the graph raises `NetworkXError` on the
first frontier scan. -/
theorem find_benefit_chain_absent (g : Graph) (sid : String)
    (h : g.nodes.contains sid = false) (hops : ℕ) :
    find_benefit_chain g sid (hops + 1) = .error .networkxError := by
  rw [find_benefit_chain, chainLoop, processFrontier, Graph.predecessors, h]
  simp

/-- C3: the claim "`scoreRejectionRisk` returns null for an unknown scheme
id, and all scoring, benefit-chain and match lookups return an explicit
not-found signal rather than raising" is FALSE for the benefit-chain lookup:
`find_benefit_chain` on an id that is not a graph node raises
`NetworkXError` (NetworkX's `predecessors` raises on an absent node), it
does not return a null/empty result. -/
theorem C3_counterexample :
    find_benefit_chain theGraph "no_such_scheme" 5 = .error .networkxError ∧
    ¬∃ l, find_benefit_chain theGraph "no_such_scheme" 5 = .ok l := by
  refine ⟨by decide, ?_⟩
  intro ⟨l, hl⟩
  rw [show (5 : ℕ) = 4 + 1 from rfl,
    find_benefit_chain_absent theGraph "no_such_scheme" (by decide) 4] at hl
  exact Except.noConfusion hl

/-- C3 (amended): for a scheme id absent from the catalog,
`AdversarialAgent.predict_rejection` returns `None` and
`EligibilityAgent.verify_eligibility` returns `None` (explicit not-found
signals, no exception); but `find_benefit_chain` on an id that is not a
graph node raises `NetworkXError` instead of returning a not-found
signal. -/
theorem C3_unknown_scheme_amended (c : CitizenProfile) (noise : ℚ) (sid : String)
    (h : SCHEME_MAP_get sid = none) :
    AdversarialAgent.predict_rejection c sid noise = .ok none ∧
    EligibilityAgent.verify_eligibility c sid = .ok none ∧
    (theGraph.has_node sid = false →
      find_benefit_chain theGraph sid 5 = .error .networkxError) := by
  refine ⟨?_, ?_, ?_⟩
  · rw [AdversarialAgent.predict_rejection, h]
  · rw [EligibilityAgent.verify_eligibility, h]
  · intro habs
    rw [Graph.has_node] at habs
    exact find_benefit_chain_absent theGraph sid habs 4

/-- Witness for C3 (amended) at the unknown id `"no_such_scheme"`. -/
theorem C3_unknown_scheme_witness :
    AdversarialAgent.predict_rejection {} "no_such_scheme" 0 = .ok none ∧
    EligibilityAgent.verify_eligibility {} "no_such_scheme" = .ok none ∧
    (theGraph.has_node "no_such_scheme" = false →
      find_benefit_chain theGraph "no_such_scheme" 5 = .error .networkxError) :=
  C3_unknown_scheme_amended {} 0 "no_such_scheme" (by decide)

/-- `A` and `B` are joined by a (directed) CONFLICTS_WITH edge in `g`. -/
def has_conflict_edge (g : Graph) (a b : String) : Bool :=
  g.edges.any (fun e => e.src == a && e.dst == b && e.relation == "CONFLICTS_WITH")

/-- The shipped graph stores exactly one symmetric conflict pair:
`sukanya_samriddhi ↔ beti_bachao`. -/
theorem conflict_edges_concrete :
    theGraph.edges.filter (fun e => e.relation == "CONFLICTS_WITH") =
      [Edge.mk "sukanya_samriddhi" "beti_bachao" "CONFLICTS_WITH",
       Edge.mk "beti_bachao" "sukanya_samriddhi" "CONFLICTS_WITH"] := by decide

theorem conflict_edge_cases {a b : String}
    (h : has_conflict_edge theGraph a b = true) :
    (a = "sukanya_samriddhi" ∧ b = "beti_bachao") ∨
    (a = "beti_bachao" ∧ b = "sukanya_samriddhi") := by
  rw [has_conflict_edge, List.any_eq_true] at h
  obtain ⟨e, he, hcond⟩ := h
  simp only [Bool.and_eq_true, beq_iff_eq] at hcond
  obtain ⟨⟨hsrc, hdst⟩, hrel⟩ := hcond
  have hmem : e ∈ theGraph.edges.filter (fun e => e.relation == "CONFLICTS_WITH") := by
    rw [List.mem_filter]
    exact ⟨he, by rw [hrel]; rfl⟩
  rw [conflict_edges_concrete] at hmem
  rcases List.mem_pair.mp hmem with h1 | h1
  · left
    rw [h1] at hsrc hdst
    exact ⟨hsrc.symm, hdst.symm⟩
  · right
    rw [h1] at hsrc hdst
    exact ⟨hsrc.symm, hdst.symm⟩

/-- C7: `detect_conflicts` is symmetric and exactly-once.  For any two
schemes `A`, `B` joined by a CONFLICTS_WITH edge in the shipped graph, both
`detect_conflicts([A, B])` and `detect_conflicts([B, A])` return the
canonical sorted pair exactly once, and that canonical pair is
order-independent. -/
theorem C7_detect_conflicts_symmetric (A B : String)
    (h : has_conflict_edge theGraph A B = true) :
    detect_conflicts theGraph [A, B] = .ok [sortedPair A B] ∧
    detect_conflicts theGraph [B, A] = .ok [sortedPair A B] ∧
    sortedPair A B = sortedPair B A := by
  rcases conflict_edge_cases h with ⟨rfl, rfl⟩ | ⟨rfl, rfl⟩
  · exact ⟨by decide, by decide, by decide⟩
  · exact ⟨by decide, by decide, by decide⟩

/-- Witness for C7 at the catalog's conflict pair. -/
theorem C7_witness :
    detect_conflicts theGraph ["sukanya_samriddhi", "beti_bachao"] =
      .ok [sortedPair "sukanya_samriddhi" "beti_bachao"] ∧
    detect_conflicts theGraph ["beti_bachao", "sukanya_samriddhi"] =
      .ok [sortedPair "sukanya_samriddhi" "beti_bachao"] ∧
    sortedPair "sukanya_samriddhi" "beti_bachao" =
      sortedPair "beti_bachao" "sukanya_samriddhi" :=
  C7_detect_conflicts_symmetric "sukanya_samriddhi" "beti_bachao" (by decide)

/-- C8: for rules of kind `age_min`/`age_max`/`income_max` with well-formed
numeric values, `evaluate_rule` is deterministic (it is a pure function:
equal inputs give equal outputs) and monotonic in the compared citizen
field — non-decreasing in age (absent age defaulting to 0) for `age_min`,
non-increasing in age for `age_max`, and non-increasing in annual income
for `income_max`. -/
theorem C8_evaluate_deterministic_monotone :
    (∀ (r : EligibilityRule) (c₁ c₂ : CitizenProfile), c₁ = c₂ →
      evaluate_rule r c₁ = evaluate_rule r c₂) ∧
    (∀ (r : EligibilityRule) (c : CitizenProfile) (v : ℤ) (a₁ a₂ : Option ℤ),
      r.rule_type = RuleType.age_min → pyInt r.value = some v →
      a₁.getD 0 ≤ a₂.getD 0 →
      evaluate_rule r { c with age := a₁ } = .ok true →
      evaluate_rule r { c with age := a₂ } = .ok true) ∧
    (∀ (r : EligibilityRule) (c : CitizenProfile) (v : ℤ) (a₁ a₂ : Option ℤ),
      r.rule_type = RuleType.age_max → pyInt r.value = some v →
      a₁.getD 0 ≤ a₂.getD 0 →
      evaluate_rule r { c with age := a₂ } = .ok true →
      evaluate_rule r { c with age := a₁ } = .ok true) ∧
    (∀ (r : EligibilityRule) (c : CitizenProfile) (v : ℚ) (i₁ i₂ : ℚ),
      r.rule_type = RuleType.income_max → pyFloat r.value = some v →
      i₁ ≤ i₂ →
      evaluate_rule r { c with annual_income := i₂ } = .ok true →
      evaluate_rule r { c with annual_income := i₁ } = .ok true) := by
  refine ⟨fun r c₁ c₂ h => by rw [h], ?_, ?_, ?_⟩
  · intro r c v a₁ a₂ ht hv hle h1
    simp only [evaluate_rule, ht, hv, ageOrZero] at h1 ⊢
    simp only [Except.ok.injEq, decide_eq_true_eq] at h1 ⊢
    omega
  · intro r c v a₁ a₂ ht hv hle h1
    simp only [evaluate_rule, ht, hv, ageOrZero] at h1 ⊢
    simp only [Except.ok.injEq, decide_eq_true_eq] at h1 ⊢
    omega
  · intro r c v i₁ i₂ ht hv hle h1
    simp only [evaluate_rule, ht, hv] at h1 ⊢
    simp only [Except.ok.injEq, decide_eq_true_eq] at h1 ⊢
    exact le_trans hle h1

/-- Witness for C8: the `age_min` monotonicity applied to a concrete
18-or-older rule, moving a citizen's age from 20 up to 25. -/
theorem C8_witness :
    evaluate_rule { rule_type := RuleType.age_min, value := "18" }
      { ({} : CitizenProfile) with age := some 25 } = .ok true :=
  C8_evaluate_deterministic_monotone.2.1
    { rule_type := RuleType.age_min, value := "18" } {} 18 (some 20) (some 25)
    rfl (by decide) (by decide) (by decide)

/-! ## Well-formedness of numeric rule values -/

/-- Every numeric parse the engine can attempt on this rule succeeds. -/
def ruleNumericOk (r : EligibilityRule) : Bool :=
  match r.rule_type with
  | .age_min => (pyInt r.value).isSome
  | .age_max => (pyInt r.value).isSome
  | .income_max => (pyFloat r.value).isSome
  | .custom => !(r.condition == "child_age_max") || (pyInt r.value).isSome
  | _ => true

def schemeRulesOk (s : Scheme) : Bool := s.eligibility_rules.all ruleNumericOk

/-- A rule whose string value cannot be parsed according to its rule kind
(`int(...)` for `age_min`/`age_max`, `float(...)` for `income_max`). -/
def malformedRule (r : EligibilityRule) : Bool :=
  match r.rule_type with
  | .age_min => (pyInt r.value).isNone
  | .age_max => (pyInt r.value).isNone
  | .income_max => (pyFloat r.value).isNone
  | _ => false

/-- A hypothetical catalog entry with an unparsable numeric rule value. -/
def bad_rule : EligibilityRule :=
  { rule_id := "bad_income", rule_type := .income_max, condition := "<=",
    value := "not_a_number", description := "Malformed income ceiling" }

def bad_scheme : Scheme :=
  { scheme_id := "bad_scheme", name := "Corrupted Scheme", category := "agriculture",
    benefit_amount := 1000, eligibility_rules := [bad_rule],
    required_documents := ["aadhaar"], approval_rate := mkRat 50 100 }

/-- Every rule value in the shipped catalog parses. -/
theorem catalog_rules_ok : SCHEMES.all schemeRulesOk = true := by decide

theorem rule_type_value_income {rt : RuleType} (h : rt.value = "income_max") :
    rt = .income_max := by
  cases rt <;> first | rfl | exact absurd h (by decide)

theorem rule_type_value_age {rt : RuleType}
    (h : rt.value = "age_min" ∨ rt.value = "age_max") :
    rt = .age_min ∨ rt = .age_max := by
  cases rt <;> rcases h with h | h <;>
    first | (left; rfl) | (right; rfl) | exact absurd h (by decide)

theorem pyFloat_isSome_of_ok {r : EligibilityRule}
    (hr : ruleNumericOk r = true) (h : r.rule_type = RuleType.income_max) :
    (pyFloat r.value).isSome = true := by
  rw [ruleNumericOk, h] at hr
  exact hr

theorem pyInt_isSome_of_ok {r : EligibilityRule}
    (hr : ruleNumericOk r = true)
    (h : r.rule_type = RuleType.age_min ∨ r.rule_type = RuleType.age_max) :
    (pyInt r.value).isSome = true := by
  rcases h with h | h <;> rw [ruleNumericOk, h] at hr <;> exact hr

theorem income_risk_loop_ok (income : ℚ) (rules : List EligibilityRule)
    (h : ∀ r ∈ rules, ruleNumericOk r = true) :
    ∀ fs t, ∃ p, income_risk_loop income rules fs t = .ok p := by
  induction rules with
  | nil => exact fun fs t => ⟨_, rfl⟩
  | cons r rest ih =>
    intro fs t
    have hrest : ∀ x ∈ rest, ruleNumericOk x = true :=
      fun x hx => h x (List.mem_cons_of_mem _ hx)
    rw [income_risk_loop]
    split
    · next hk =>
      have hty : r.rule_type = .income_max :=
        rule_type_value_income (by simpa using hk)
      obtain ⟨mv, hmv⟩ := Option.isSome_iff_exists.mp
        (pyFloat_isSome_of_ok (h r (List.mem_cons_self ..)) hty)
      simp only [hmv]
      split <;> split <;> exact ih hrest _ _
    · exact ih hrest _ _

theorem age_risk_loop_ok (age : ℤ) (rules : List EligibilityRule)
    (h : ∀ r ∈ rules, ruleNumericOk r = true) :
    ∀ fs t, ∃ p, age_risk_loop age rules fs t = .ok p := by
  induction rules with
  | nil => exact fun fs t => ⟨_, rfl⟩
  | cons r rest ih =>
    intro fs t
    have hrest : ∀ x ∈ rest, ruleNumericOk x = true :=
      fun x hx => h x (List.mem_cons_of_mem _ hx)
    rw [age_risk_loop]
    split
    · next hk =>
      have hty : r.rule_type = .age_min ∨ r.rule_type = .age_max := by
        apply rule_type_value_age
        rcases Bool.or_eq_true_iff.mp hk with hk1 | hk1
        · exact Or.inl (by simpa using hk1)
        · exact Or.inr (by simpa using hk1)
      obtain ⟨v, hv⟩ := Option.isSome_iff_exists.mp
        (pyInt_isSome_of_ok (h r (List.mem_cons_self ..)) hty)
      simp only [hv]
      split
      · exact ih hrest _ _
      · exact ih hrest _ _
    · exact ih hrest _ _

theorem first_income_ratio_ok (income : ℚ) (rules : List EligibilityRule)
    (h : ∀ r ∈ rules, ruleNumericOk r = true) :
    ∃ p, first_income_ratio income rules = .ok p := by
  induction rules with
  | nil => exact ⟨_, rfl⟩
  | cons r rest ih =>
    rw [first_income_ratio]
    split
    · next hk =>
      have hty : r.rule_type = .income_max :=
        rule_type_value_income (by simpa using hk)
      obtain ⟨mv, hmv⟩ := Option.isSome_iff_exists.mp
        (pyFloat_isSome_of_ok (h r (List.mem_cons_self ..)) hty)
      simp only [hmv]
      exact ⟨_, rfl⟩
    · exact ih (fun x hx => h x (List.mem_cons_of_mem _ hx))

theorem ml_age_risk_ok (age : ℤ) (rules : List EligibilityRule)
    (h : ∀ r ∈ rules, ruleNumericOk r = true) :
    ∀ acc, ∃ p, ml_age_risk age rules acc = .ok p := by
  induction rules with
  | nil => exact fun acc => ⟨_, rfl⟩
  | cons r rest ih =>
    intro acc
    have hrest : ∀ x ∈ rest, ruleNumericOk x = true :=
      fun x hx => h x (List.mem_cons_of_mem _ hx)
    rw [ml_age_risk]
    split
    · next hk =>
      have hty : r.rule_type = .age_min ∨ r.rule_type = .age_max := by
        apply rule_type_value_age
        rcases Bool.or_eq_true_iff.mp hk with hk1 | hk1
        · exact Or.inl (by simpa using hk1)
        · exact Or.inr (by simpa using hk1)
      obtain ⟨v, hv⟩ := Option.isSome_iff_exists.mp
        (pyInt_isSome_of_ok (h r (List.mem_cons_self ..)) hty)
      simp only [hv]
      split
      · exact ih hrest _
      · exact ih hrest _
    · exact ih hrest acc

/-- `validation_phase5` succeeds on every well-formed scheme. -/
theorem validation_phase5_ok (c : CitizenProfile) (s : Scheme)
    (hall : ∀ r ∈ s.eligibility_rules, ruleNumericOk r = true)
    (fs : List RiskFactor) (t : ℚ) :
    ∃ p, validation_phase5 c s fs t = .ok p := by
  rw [validation_phase5]
  match c.age with
  | some a =>
    simp only []
    split
    · exact age_risk_loop_ok a s.eligibility_rules hall fs t
    · exact ⟨_, rfl⟩
  | none => exact ⟨_, rfl⟩

/-- `validation_phases` succeeds on every well-formed scheme. -/
theorem validation_phases_ok (c : CitizenProfile) (s : Scheme)
    (hall : ∀ r ∈ s.eligibility_rules, ruleNumericOk r = true)
    (fs : List RiskFactor) (t : ℚ) :
    ∃ p, validation_phases c s fs t = .ok p := by
  rw [validation_phases]
  obtain ⟨p2, hp2⟩ : ∃ p2, (if (0 : ℚ) < c.annual_income then
      income_risk_loop c.annual_income s.eligibility_rules fs t
    else .ok (fs, t)) = .ok p2 := by
    split
    · exact income_risk_loop_ok c.annual_income s.eligibility_rules hall fs t
    · exact ⟨_, rfl⟩
  rw [hp2]
  exact validation_phase5_ok c s hall _ _

/-- The rule-based scorer succeeds on every well-formed scheme, its
probability is the two-decimal rounding of the clamped total (hence in
`[0, 1]`), and its recommendations are the deduplicated factor
recommendations. -/
theorem validation_predict_ok (c : CitizenProfile) (s : Scheme)
    (h : schemeRulesOk s = true) :
    ∃ ra, Validation.predict_rejection c s = .ok ra ∧
      0 ≤ ra.rejection_probability ∧ ra.rejection_probability ≤ 1 ∧
      ra.recommendations =
        generate_recommendations_raw ra.risk_factors (check_missing_docs c s) := by
  have hall : ∀ r ∈ s.eligibility_rules, ruleNumericOk r = true :=
    fun r hr => List.all_eq_true.mp h r hr
  rw [Validation.predict_rejection]
  obtain ⟨p, hp⟩ := validation_phases_ok c s hall _ _
  rw [hp]
  refine ⟨_, rfl, ?_, ?_, rfl⟩
  · apply pyRound_nonneg
    exact le_min (le_max_right _ _) zero_le_one
  · apply pyRound_le_one
    exact min_le_right _ _

/-- The feature-weighted scorer succeeds on every well-formed scheme and its
output is the three-decimal rounding of a value clamped to `[0, 1]`. -/
theorem ml_predict_ok (c : CitizenProfile) (s : Scheme) (noise : ℚ)
    (h : schemeRulesOk s = true) :
    ∃ p, predict_rejection_probability c s noise = .ok p ∧ 0 ≤ p ∧ p ≤ 1 := by
  have hall : ∀ r ∈ s.eligibility_rules, ruleNumericOk r = true :=
    fun r hr => List.all_eq_true.mp h r hr
  rw [predict_rejection_probability, encode_features]
  obtain ⟨ir, hir⟩ := first_income_ratio_ok c.annual_income s.eligibility_rules hall
  rw [hir]
  have hage : ∃ ar, (match c.age with
      | some a => if a ≠ 0 then ml_age_risk a s.eligibility_rules 0 else .ok 0
      | none => .ok (0 : ℚ)) = .ok ar := by
    match c.age with
    | some a =>
      simp only []
      split
      · exact ml_age_risk_ok a s.eligibility_rules hall 0
      · exact ⟨_, rfl⟩
    | none => exact ⟨_, rfl⟩
  obtain ⟨ar, har⟩ := hage
  rw [har]
  refine ⟨_, rfl, ?_, ?_⟩
  · apply pyRound_nonneg
    exact le_max_left _ _
  · apply pyRound_le_one
    exact max_le zero_le_one (min_le_left _ _)

theorem mkRat_6_10 : (mkRat 6 10 : ℚ) = 6 / 10 := by
  rw [Rat.mkRat_eq_divInt, Rat.divInt_eq_div]
  norm_num

theorem mkRat_4_10 : (mkRat 4 10 : ℚ) = 4 / 10 := by
  rw [Rat.mkRat_eq_divInt, Rat.divInt_eq_div]
  norm_num

theorem scheme_lookup_rules_ok {sid : String} {s : Scheme}
    (h : SCHEME_MAP_get sid = some s) : schemeRulesOk s = true := by
  have hmem : s ∈ SCHEMES := List.mem_of_find?_eq_some h
  exact List.all_eq_true.mp catalog_rules_ok s hmem

/-- C5: for every citizen and catalog scheme, the final rejection
probability returned by `AdversarialAgent.predict_rejection` is
`round(0.6 · rule_based + 0.4 · feature_weighted, 2)`, lies in `[0, 1]`,
and the returned risk level is the fixed threshold ladder applied to the
(unrounded) combined score. -/
theorem C5_ensemble_probability (c : CitizenProfile) (sid : String) (s : Scheme)
    (noise : ℚ) (h : SCHEME_MAP_get sid = some s) :
    ∃ ra mlp a, Validation.predict_rejection c s = .ok ra ∧
      predict_rejection_probability c s noise = .ok mlp ∧
      AdversarialAgent.predict_rejection c sid noise = .ok (some a) ∧
      a.rejection_probability =
        pyRound (pyAdd (pyMul ra.rejection_probability (mkRat 6 10))
          (pyMul mlp (mkRat 4 10))) 2 ∧
      0 ≤ a.rejection_probability ∧ a.rejection_probability ≤ 1 ∧
      a.risk_level = riskLevelOf (pyAdd (pyMul ra.rejection_probability (mkRat 6 10))
        (pyMul mlp (mkRat 4 10))) := by
  have hwf := scheme_lookup_rules_ok h
  obtain ⟨ra, hra, hra0, hra1, -⟩ := validation_predict_ok c s hwf
  obtain ⟨mlp, hmlp, hml0, hml1⟩ := ml_predict_ok c s noise hwf
  refine ⟨ra, mlp,
    { ra with
      rejection_probability := pyRound (pyAdd (pyMul ra.rejection_probability (mkRat 6 10))
        (pyMul mlp (mkRat 4 10))) 2,
      risk_level := riskLevelOf (pyAdd (pyMul ra.rejection_probability (mkRat 6 10))
        (pyMul mlp (mkRat 4 10))) },
    hra, hmlp, ?_, rfl, ?_, ?_, rfl⟩
  · simp only [AdversarialAgent.predict_rejection, h, hra, hmlp]
  · apply pyRound_nonneg
    rw [pyAdd_eq, pyMul_eq, pyMul_eq, mkRat_6_10, mkRat_4_10]
    positivity
  · apply pyRound_le_one
    rw [pyAdd_eq, pyMul_eq, pyMul_eq, mkRat_6_10, mkRat_4_10]
    nlinarith [hra0, hra1, hml0, hml1]

/-- Witness for C5 on the empty citizen profile and `pm_kisan`. -/
theorem C5_witness :
    ∃ ra mlp a, Validation.predict_rejection {} pm_kisan = .ok ra ∧
      predict_rejection_probability {} pm_kisan 0 = .ok mlp ∧
      AdversarialAgent.predict_rejection {} "pm_kisan" 0 = .ok (some a) ∧
      a.rejection_probability =
        pyRound (pyAdd (pyMul ra.rejection_probability (mkRat 6 10))
          (pyMul mlp (mkRat 4 10))) 2 ∧
      0 ≤ a.rejection_probability ∧ a.rejection_probability ≤ 1 ∧
      a.risk_level = riskLevelOf (pyAdd (pyMul ra.rejection_probability (mkRat 6 10))
        (pyMul mlp (mkRat 4 10))) :=
  C5_ensemble_probability {} "pm_kisan" pm_kisan 0 (by decide)

theorem dedupFirstAux_sublist :
    ∀ (l seen : List String), List.Sublist (dedupFirstAux l seen) l
  | [], _ => List.Sublist.refl []
  | x :: rest, seen => by
    rw [dedupFirstAux]
    split
    · exact (dedupFirstAux_sublist rest seen).cons x
    · exact (dedupFirstAux_sublist rest (x :: seen)).cons₂ x

theorem dedupFirstAux_not_seen :
    ∀ (l seen : List String) (x : String), x ∈ dedupFirstAux l seen →
      seen.contains x = false := by
  intro l
  induction l with
  | nil => intro seen x hx; cases hx
  | cons y rest ih =>
    intro seen x hx
    rw [dedupFirstAux] at hx
    split at hx
    · exact ih seen x hx
    · next hy =>
      rcases List.mem_cons.mp hx with rfl | hx2
      · exact Bool.eq_false_iff.mpr hy
      · have := ih (y :: seen) x hx2
        rw [List.contains_cons] at this
        exact (Bool.or_eq_false_iff.mp this).2

theorem dedupFirstAux_nodup : ∀ (l seen : List String), (dedupFirstAux l seen).Nodup := by
  intro l
  induction l with
  | nil => intro seen; exact List.nodup_nil
  | cons y rest ih =>
    intro seen
    rw [dedupFirstAux]
    split
    · exact ih seen
    · refine List.nodup_cons.mpr ⟨fun hmem => ?_, ih (y :: seen)⟩
      have := dedupFirstAux_not_seen rest (y :: seen) y hmem
      rw [List.contains_cons] at this
      simp at this

theorem dedupFirstAux_mem :
    ∀ (l seen : List String) (x : String),
      x ∈ dedupFirstAux l seen ↔ x ∈ l ∧ seen.contains x = false := by
  intro l
  induction l with
  | nil => intro seen x; simp [dedupFirstAux]
  | cons y rest ih =>
    intro seen x
    rw [dedupFirstAux]
    split
    · next hy =>
      rw [ih seen x]
      constructor
      · exact fun ⟨h1, h2⟩ => ⟨List.mem_cons_of_mem _ h1, h2⟩
      · rintro ⟨h1, h2⟩
        rcases List.mem_cons.mp h1 with rfl | h1
        · exact absurd hy (by rw [h2]; exact Bool.false_ne_true)
        · exact ⟨h1, h2⟩
    · next hy =>
      constructor
      · intro hx
        rcases List.mem_cons.mp hx with rfl | hx2
        · exact ⟨List.mem_cons_self .., Bool.eq_false_iff.mpr hy⟩
        · have h2 := (ih (y :: seen) x).mp hx2
          rw [List.contains_cons] at h2
          exact ⟨List.mem_cons_of_mem _ h2.1, (Bool.or_eq_false_iff.mp h2.2).2⟩
      · rintro ⟨h1, h2⟩
        rcases List.mem_cons.mp h1 with rfl | h1
        · exact List.mem_cons_self ..
        · by_cases hxy : x = y
          · subst hxy
            exact List.mem_cons_self ..
          · apply List.mem_cons_of_mem
            apply (ih (y :: seen) x).mpr
            refine ⟨h1, ?_⟩
            rw [List.contains_cons, h2]
            simp [hxy]

theorem dedupFirst_nodup (l : List String) : (dedupFirst l).Nodup :=
  dedupFirstAux_nodup l []

theorem dedupFirst_sublist (l : List String) : List.Sublist (dedupFirst l) l :=
  dedupFirstAux_sublist l []

theorem dedupFirst_mem (l : List String) (x : String) : x ∈ dedupFirst l ↔ x ∈ l := by
  rw [dedupFirst, dedupFirstAux_mem]
  simp

/-- `AdversarialAgent.generate_recommendations` in closed form: the
high-risk banner is prepended when the (combined) risk level is high or
critical, and the CSC suggestion is appended when the (combined, rounded)
rejection probability exceeds `0.5`. -/
theorem generate_recommendations_eq (a : RejectionAnalysis) :
    AdversarialAgent.generate_recommendations a =
      (if a.risk_level = "high" ∨ a.risk_level = "critical" then
        "⚠ HIGH RISK — Address the following issues before submitting:" :: a.recommendations
       else a.recommendations) ++
      (if mkRat 1 2 < a.rejection_probability then
        ["Consider applying through a Common Service Centre (CSC) for assisted form-filling"]
       else []) := by
  rw [AdversarialAgent.generate_recommendations]
  by_cases h1 : a.risk_level = "high" ∨ a.risk_level = "critical" <;>
    by_cases h2 : mkRat 1 2 < a.rejection_probability <;>
    simp [h1, h2]

/-- C9: the recommendations of the analysis returned by a scoring call are
exactly the rule-based scorer's recommendations (the order-preserving
first-occurrence dedup of the per-factor recommendation lists), and
`generate_recommendations` prepends the high-risk banner exactly when the
combined risk level is high or critical and appends the CSC
assisted-filing suggestion exactly when the combined rejection probability
exceeds `0.5`. -/
theorem C9_recommendation_assembly (c : CitizenProfile) (sid : String) (s : Scheme)
    (noise : ℚ) (h : SCHEME_MAP_get sid = some s) :
    ∃ ra a, Validation.predict_rejection c s = .ok ra ∧
      AdversarialAgent.predict_rejection c sid noise = .ok (some a) ∧
      a.recommendations = ra.recommendations ∧
      a.recommendations =
        dedupFirst ((ra.risk_factors.map (recsForFactor (check_missing_docs c s))).flatten) ∧
      a.recommendations.Nodup ∧
      List.Sublist a.recommendations
        ((ra.risk_factors.map (recsForFactor (check_missing_docs c s))).flatten) ∧
      (∀ rec, rec ∈ a.recommendations ↔
        rec ∈ (ra.risk_factors.map (recsForFactor (check_missing_docs c s))).flatten) ∧
      AdversarialAgent.generate_recommendations a =
        (if a.risk_level = "high" ∨ a.risk_level = "critical" then
          "⚠ HIGH RISK — Address the following issues before submitting:" :: a.recommendations
         else a.recommendations) ++
        (if mkRat 1 2 < a.rejection_probability then
          ["Consider applying through a Common Service Centre (CSC) for assisted form-filling"]
         else []) := by
  have hwf := scheme_lookup_rules_ok h
  obtain ⟨ra, hra, -, -, hrecs⟩ := validation_predict_ok c s hwf
  obtain ⟨mlp, hmlp, -, -⟩ := ml_predict_ok c s noise hwf
  rw [generate_recommendations_raw] at hrecs
  refine ⟨ra,
    { ra with
      rejection_probability := pyRound (pyAdd (pyMul ra.rejection_probability (mkRat 6 10))
        (pyMul mlp (mkRat 4 10))) 2,
      risk_level := riskLevelOf (pyAdd (pyMul ra.rejection_probability (mkRat 6 10))
        (pyMul mlp (mkRat 4 10))) },
    hra, ?_, rfl, hrecs, ?_, ?_, ?_, generate_recommendations_eq _⟩
  · simp only [AdversarialAgent.predict_rejection, h, hra, hmlp]
  · rw [hrecs]
    exact dedupFirst_nodup _
  · rw [hrecs]
    exact dedupFirst_sublist _
  · intro rec
    rw [hrecs]
    exact dedupFirst_mem _ rec

/-- Witness for C9 on the empty citizen profile and `pm_kisan`. -/
theorem C9_witness :
    ∃ ra a, Validation.predict_rejection {} pm_kisan = .ok ra ∧
      AdversarialAgent.predict_rejection {} "pm_kisan" 0 = .ok (some a) ∧
      a.recommendations = ra.recommendations ∧
      a.recommendations =
        dedupFirst ((ra.risk_factors.map (recsForFactor (check_missing_docs {} pm_kisan))).flatten) ∧
      a.recommendations.Nodup ∧
      List.Sublist a.recommendations
        ((ra.risk_factors.map (recsForFactor (check_missing_docs {} pm_kisan))).flatten) ∧
      (∀ rec, rec ∈ a.recommendations ↔
        rec ∈ (ra.risk_factors.map (recsForFactor (check_missing_docs {} pm_kisan))).flatten) ∧
      AdversarialAgent.generate_recommendations a =
        (if a.risk_level = "high" ∨ a.risk_level = "critical" then
          "⚠ HIGH RISK — Address the following issues before submitting:" :: a.recommendations
         else a.recommendations) ++
        (if mkRat 1 2 < a.rejection_probability then
          ["Consider applying through a Common Service Centre (CSC) for assisted form-filling"]
         else []) :=
  C9_recommendation_assembly {} "pm_kisan" pm_kisan 0 (by decide)

/-- A backward `DEPENDS_ON` path of length `k` from `x` to `y`: `x` reaches
`y` in exactly `k` dependency hops. -/
def depPath (g : Graph) : ℕ → String → String → Prop
  | 0, x, y => x = y
  | k + 1, x, y => ∃ z, g.get_edge_data x z = some "DEPENDS_ON" ∧ depPath g k z y

theorem scontains_iff (l : List String) (x : String) : l.contains x = true ↔ x ∈ l :=
  List.elem_iff

/-- Invariant transfer through the predecessor scan of one frontier node:
the dependents list stays duplicate-free, everything collected is marked
visited, the start node is never collected, and every collected node has a
backward `DEPENDS_ON` path to the start of positive length at most `D`. -/
theorem addPreds_spec (g : Graph) (sid cur : String) (D kcur : ℕ)
    (hcur : depPath g kcur cur sid) (hk : kcur + 1 ≤ D) :
    ∀ (preds visited deps nf : List String),
      deps.Nodup →
      (∀ x ∈ deps, visited.contains x = true) →
      (∀ x ∈ nf, visited.contains x = true) →
      visited.contains sid = true →
      sid ∉ deps →
      (∀ x ∈ deps, ∃ k, 1 ≤ k ∧ k ≤ D ∧ depPath g k x sid) →
      (∀ x ∈ nf, ∃ k, 1 ≤ k ∧ k ≤ D ∧ depPath g k x sid) →
      ((addPreds g cur preds visited deps nf).2.1.Nodup ∧
       (∀ x ∈ (addPreds g cur preds visited deps nf).2.1,
         (addPreds g cur preds visited deps nf).1.contains x = true) ∧
       (∀ x ∈ (addPreds g cur preds visited deps nf).2.2,
         (addPreds g cur preds visited deps nf).1.contains x = true) ∧
       (addPreds g cur preds visited deps nf).1.contains sid = true ∧
       sid ∉ (addPreds g cur preds visited deps nf).2.1 ∧
       (∀ x ∈ (addPreds g cur preds visited deps nf).2.1,
         ∃ k, 1 ≤ k ∧ k ≤ D ∧ depPath g k x sid) ∧
       (∀ x ∈ (addPreds g cur preds visited deps nf).2.2,
         ∃ k, 1 ≤ k ∧ k ≤ D ∧ depPath g k x sid)) := by
  intro preds
  induction preds with
  | nil =>
    intro visited deps nf h1 h2 h3 h4 h5 h6 h7
    exact ⟨h1, h2, h3, h4, h5, h6, h7⟩
  | cons p ps ih =>
    intro visited deps nf h1 h2 h3 h4 h5 h6 h7
    rw [addPreds]
    split
    · next hcond =>
      obtain ⟨hedge, hnotv⟩ := Bool.and_eq_true_iff.mp hcond
      have hnv : visited.contains p = false := by
        rcases Bool.eq_false_or_eq_true (visited.contains p) with ht | hf
        · rw [ht] at hnotv
          cases hnotv
        · exact hf
      have hpd : p ∉ deps := fun hmem => by
        rw [h2 p hmem] at hnv
        cases hnv
      have hpne : p ≠ sid := fun he => by
        rw [he, h4] at hnv
        cases hnv
      have hppath : ∃ k, 1 ≤ k ∧ k ≤ D ∧ depPath g k p sid := by
        refine ⟨kcur + 1, Nat.le_add_left 1 kcur, hk, cur, ?_, hcur⟩
        simpa using hedge
      apply ih (p :: visited) (deps ++ [p]) (nf ++ [p])
      · exact List.Nodup.append h1 (List.nodup_singleton p)
          (fun a ha hb => by
            rw [List.mem_singleton] at hb
            exact hpd (hb ▸ ha))
      · intro x hx
        rcases List.mem_append.mp hx with hx | hx
        · rw [List.contains_cons, h2 x hx]
          simp
        · rw [List.mem_singleton] at hx
          subst hx
          rw [List.contains_cons]
          simp
      · intro x hx
        rcases List.mem_append.mp hx with hx | hx
        · rw [List.contains_cons, h3 x hx]
          simp
        · rw [List.mem_singleton] at hx
          subst hx
          rw [List.contains_cons]
          simp
      · rw [List.contains_cons, h4]
        simp
      · intro hmem
        rcases List.mem_append.mp hmem with hx | hx
        · exact h5 hx
        · rw [List.mem_singleton] at hx
          exact hpne hx.symm
      · intro x hx
        rcases List.mem_append.mp hx with hx | hx
        · exact h6 x hx
        · rw [List.mem_singleton] at hx
          exact hx ▸ hppath
      · intro x hx
        rcases List.mem_append.mp hx with hx | hx
        · exact h7 x hx
        · rw [List.mem_singleton] at hx
          exact hx ▸ hppath
    · exact ih visited deps nf h1 h2 h3 h4 h5 h6 h7

/-- Invariant transfer through one full hop of the backward walk. -/
theorem processFrontier_spec (g : Graph) (sid : String) (ℓ : ℕ) :
    ∀ (frontier visited deps nf : List String)
      (t : List String × List String × List String),
      processFrontier g frontier visited deps nf = .ok t →
      (∀ x ∈ frontier, ∃ k, k ≤ ℓ ∧ depPath g k x sid) →
      deps.Nodup →
      (∀ x ∈ deps, visited.contains x = true) →
      (∀ x ∈ nf, visited.contains x = true) →
      visited.contains sid = true →
      sid ∉ deps →
      (∀ x ∈ deps, ∃ k, 1 ≤ k ∧ k ≤ ℓ + 1 ∧ depPath g k x sid) →
      (∀ x ∈ nf, ∃ k, 1 ≤ k ∧ k ≤ ℓ + 1 ∧ depPath g k x sid) →
      (t.2.1.Nodup ∧
       (∀ x ∈ t.2.1, t.1.contains x = true) ∧
       (∀ x ∈ t.2.2, t.1.contains x = true) ∧
       t.1.contains sid = true ∧
       sid ∉ t.2.1 ∧
       (∀ x ∈ t.2.1, ∃ k, 1 ≤ k ∧ k ≤ ℓ + 1 ∧ depPath g k x sid) ∧
       (∀ x ∈ t.2.2, ∃ k, 1 ≤ k ∧ k ≤ ℓ + 1 ∧ depPath g k x sid)) := by
  intro frontier
  induction frontier with
  | nil =>
    intro visited deps nf t ht _ h1 h2 h3 h4 h5 h6 h7
    rw [processFrontier] at ht
    cases ht
    exact ⟨h1, h2, h3, h4, h5, h6, h7⟩
  | cons cur rest ih =>
    intro visited deps nf t ht hfr h1 h2 h3 h4 h5 h6 h7
    rw [processFrontier] at ht
    rcases hpred : g.predecessors cur with e | preds
    · rw [hpred] at ht
      cases ht
    · rw [hpred] at ht
      obtain ⟨kc, hkc, hpathc⟩ := hfr cur (List.mem_cons_self ..)
      have hspec := addPreds_spec g sid cur (ℓ + 1) kc hpathc
        (Nat.add_le_add_right hkc 1) preds visited deps nf h1 h2 h3 h4 h5 h6 h7
      exact ih _ _ _ t ht (fun x hx => hfr x (List.mem_cons_of_mem _ hx))
        hspec.1 hspec.2.1 hspec.2.2.1 hspec.2.2.2.1 hspec.2.2.2.2.1
        hspec.2.2.2.2.2.1 hspec.2.2.2.2.2.2

/-- Invariant transfer through the hop loop: on success the collected
dependents are duplicate-free, never contain the start node, and every one
of them has a backward `DEPENDS_ON` path of positive length at most
`ℓ + fuel` to the start. -/
theorem chainLoop_spec (g : Graph) (sid : String) :
    ∀ (fuel ℓ : ℕ) (frontier visited deps l : List String),
      chainLoop g fuel frontier visited deps = .ok l →
      (∀ x ∈ frontier, ∃ k, k ≤ ℓ ∧ depPath g k x sid) →
      deps.Nodup →
      (∀ x ∈ deps, visited.contains x = true) →
      visited.contains sid = true →
      sid ∉ deps →
      (∀ x ∈ deps, ∃ k, 1 ≤ k ∧ k ≤ ℓ ∧ depPath g k x sid) →
      (l.Nodup ∧ sid ∉ l ∧
       ∀ x ∈ l, ∃ k, 1 ≤ k ∧ k ≤ ℓ + fuel ∧ depPath g k x sid) := by
  intro fuel
  induction fuel with
  | zero =>
    intro ℓ frontier visited deps l hl hfr h1 h2 h4 h5 h6
    rw [chainLoop] at hl
    cases hl
    exact ⟨h1, h5, fun x hx => by
      obtain ⟨k, hk1, hk2, hp⟩ := h6 x hx
      exact ⟨k, hk1, le_trans hk2 (Nat.le_add_right ℓ 0), hp⟩⟩
  | succ f ih =>
    intro ℓ frontier visited deps l hl hfr h1 h2 h4 h5 h6
    rw [chainLoop] at hl
    rcases hpf : processFrontier g frontier visited deps [] with e | t
    · rw [hpf] at hl
      cases hl
    · rw [hpf] at hl
      obtain ⟨v, d, next⟩ := t
      simp only [] at hl
      have hdw : ∀ x ∈ deps, ∃ k, 1 ≤ k ∧ k ≤ ℓ + 1 ∧ depPath g k x sid :=
        fun x hx => by
          obtain ⟨k, hk1, hk2, hp⟩ := h6 x hx
          exact ⟨k, hk1, le_trans hk2 (Nat.le_succ ℓ), hp⟩
      have hspec := processFrontier_spec g sid ℓ frontier visited deps [] (v, d, next)
        hpf hfr h1 h2 (fun x hx => absurd hx (List.not_mem_nil x)) h4 h5 hdw
        (fun x hx => absurd hx (List.not_mem_nil x))
      obtain ⟨m1, m2, m3, m4, m5, m6, m7⟩ := hspec
      by_cases hemp : next.isEmpty = true
      · rw [if_pos hemp] at hl
        cases hl
        exact ⟨m1, m5, fun x hx => by
          obtain ⟨k, hk1, hk2, hp⟩ := m6 x hx
          exact ⟨k, hk1, le_trans hk2 (by omega), hp⟩⟩
      · rw [if_neg hemp] at hl
        have := ih (ℓ + 1) next v d l hl
          (fun x hx => by
            obtain ⟨k, hk1, hk2, hp⟩ := m7 x hx
            exact ⟨k, hk2, hp⟩)
          m1 m2 m4 m5 m6
        obtain ⟨r1, r2, r3⟩ := this
        exact ⟨r1, r2, fun x hx => by
          obtain ⟨k, hk1, hk2, hp⟩ := r3 x hx
          exact ⟨k, hk1, by omega, hp⟩⟩

/-- C6: `find_benefit_chain` is a bounded breadth-first backward walk along
`DEPENDS_ON` edges: whenever it returns (it is a total function of its
fuel, so it terminates on every graph, cyclic or diamond-shaped ones
included), the returned list contains no scheme id twice, and every
returned id reaches the start scheme by a backward `DEPENDS_ON` path of at
most `max_hops = 5` hops — i.e. at most 5 traversal levels are collected. -/
theorem C6_benefit_chain_bounded_nodup (g : Graph) (sid : String) (l : List String)
    (h : find_benefit_chain g sid 5 = .ok l) :
    l.Nodup ∧ ∀ x ∈ l, ∃ k, 1 ≤ k ∧ k ≤ 5 ∧ depPath g k x sid := by
  rw [find_benefit_chain] at h
  have := chainLoop_spec g sid 5 0 [sid] [sid] [] l h
    (fun x hx => by
      rw [List.mem_singleton] at hx
      exact ⟨0, le_refl 0, hx ▸ rfl⟩)
    List.nodup_nil
    (fun x hx => absurd hx (List.not_mem_nil x))
    (by simp)
    (List.not_mem_nil sid)
    (fun x hx => absurd hx (List.not_mem_nil x))
  exact ⟨this.1, this.2.2⟩

/-- Witness for C6 on the shipped graph: the chain of `pm_jan_dhan`. -/
theorem C6_witness :
    (["pmay", "standup_india"] : List String).Nodup ∧
    ∀ x ∈ (["pmay", "standup_india"] : List String),
      ∃ k, 1 ≤ k ∧ k ≤ 5 ∧ depPath theGraph k x "pm_jan_dhan" :=
  C6_benefit_chain_bounded_nodup theGraph "pm_jan_dhan" ["pmay", "standup_india"]
    (by decide)

/-- C10: the start scheme id is pre-seeded into the visited set, so the
list returned by `find_benefit_chain` never contains the starting id, even
when dependency cycles lead back to it. -/
theorem C10_chain_excludes_start (g : Graph) (sid : String) (l : List String)
    (h : find_benefit_chain g sid 5 = .ok l) : sid ∉ l := by
  rw [find_benefit_chain] at h
  have := chainLoop_spec g sid 5 0 [sid] [sid] [] l h
    (fun x hx => by
      rw [List.mem_singleton] at hx
      exact ⟨0, le_refl 0, hx ▸ rfl⟩)
    List.nodup_nil
    (fun x hx => absurd hx (List.not_mem_nil x))
    (by simp)
    (List.not_mem_nil sid)
    (fun x hx => absurd hx (List.not_mem_nil x))
  exact this.2.1

/-- Witness for C10 on the shipped graph: the chain of `pm_kisan`. -/
theorem C10_witness : "pm_kisan" ∉ (["pm_fasal_bima"] : List String) :=
  C10_chain_excludes_start theGraph "pm_kisan" ["pm_fasal_bima"] (by decide)

theorem map_except_ok_forall {α β ε : Type} {f : α → Except ε β} :
    ∀ {l : List α} {bs : List β}, map_except f l = .ok bs →
      List.Forall₂ (fun a b => f a = .ok b) l bs := by
  intro l
  induction l with
  | nil =>
    intro bs h
    rw [map_except] at h
    cases h
    exact List.Forall₂.nil
  | cons a rest ih =>
    intro bs h
    rw [map_except] at h
    rcases hfa : f a with e | b
    · rw [hfa] at h
      cases h
    · rw [hfa] at h
      rcases hrest : map_except f rest with e | bs'
      · rw [hrest] at h
        cases h
      · rw [hrest] at h
        cases h
        exact List.Forall₂.cons hfa (ih hrest)

theorem map_except_ok_exists {α β ε : Type} {f : α → Except ε β} :
    ∀ {l : List α}, (∀ a ∈ l, ∃ b, f a = .ok b) →
      ∃ bs, map_except f l = .ok bs := by
  intro l
  induction l with
  | nil => exact fun _ => ⟨[], rfl⟩
  | cons a rest ih =>
    intro h
    obtain ⟨b, hb⟩ := h a (List.mem_cons_self ..)
    obtain ⟨bs, hbs⟩ := ih (fun x hx => h x (List.mem_cons_of_mem _ hx))
    exact ⟨b :: bs, by rw [map_except, hb, hbs]⟩

theorem forall₂_mem_left {α β : Type} {R : α → β → Prop} :
    ∀ {l : List α} {bs : List β}, List.Forall₂ R l bs → ∀ a ∈ l, ∃ b ∈ bs, R a b := by
  intro l
  induction l with
  | nil => intro bs _ a ha; cases ha
  | cons x rest ih =>
    intro bs h a ha
    cases h with
    | cons hx hrest =>
      rcases List.mem_cons.mp ha with rfl | ha2
      · exact ⟨_, List.mem_cons_self .., hx⟩
      · obtain ⟨b, hb, hR⟩ := ih hrest a ha2
        exact ⟨b, List.mem_cons_of_mem _ hb, hR⟩

/-- `evaluate_rule` succeeds on every rule whose numeric value parses. -/
theorem evaluate_rule_ok (r : EligibilityRule) (c : CitizenProfile)
    (h : ruleNumericOk r = true) : ∃ b, evaluate_rule r c = .ok b := by
  rw [evaluate_rule]
  rw [ruleNumericOk] at h
  cases hty : r.rule_type <;> rw [hty] at h <;> simp only []
  case age_min =>
    obtain ⟨v, hv⟩ := Option.isSome_iff_exists.mp h
    rw [hv]
    exact ⟨_, rfl⟩
  case age_max =>
    obtain ⟨v, hv⟩ := Option.isSome_iff_exists.mp h
    rw [hv]
    exact ⟨_, rfl⟩
  case income_max =>
    obtain ⟨v, hv⟩ := Option.isSome_iff_exists.mp h
    rw [hv]
    exact ⟨_, rfl⟩
  case custom =>
    split
    · next hcond =>
      split
      · have hsome : (pyInt r.value).isSome = true := by
          rcases Bool.or_eq_true_iff.mp h with h1 | h1
          · rw [hcond] at h1
            simp at h1
          · exact h1
        obtain ⟨v, hv⟩ := Option.isSome_iff_exists.mp hsome
        rw [hv]
        exact ⟨_, rfl⟩
      · exact ⟨_, rfl⟩
    · split
      · exact ⟨_, rfl⟩
      · exact ⟨_, rfl⟩
  all_goals exact ⟨_, rfl⟩

theorem eval_rules_loop_ok (c : CitizenProfile) (rules : List EligibilityRule)
    (h : ∀ r ∈ rules, ruleNumericOk r = true) :
    ∀ m f, ∃ p, eval_rules_loop c rules m f = .ok p := by
  induction rules with
  | nil => exact fun m f => ⟨_, rfl⟩
  | cons r rest ih =>
    intro m f
    obtain ⟨b, hb⟩ := evaluate_rule_ok r c (h r (List.mem_cons_self ..))
    have hrest : ∀ x ∈ rest, ruleNumericOk x = true :=
      fun x hx => h x (List.mem_cons_of_mem _ hx)
    rw [eval_rules_loop, hb]
    cases b
    · exact ih hrest m (f ++ [descriptionOrId r])
    · exact ih hrest (m ++ [descriptionOrId r]) f

theorem eval_rules_loop_ok_inv (c : CitizenProfile) :
    ∀ (rules : List EligibilityRule) (m f : List String) (p : List String × List String),
      eval_rules_loop c rules m f = .ok p →
      ∀ r ∈ rules, ∃ b, evaluate_rule r c = .ok b := by
  intro rules
  induction rules with
  | nil => intro m f p _ r hr; cases hr
  | cons x rest ih =>
    intro m f p hp r hr
    rw [eval_rules_loop] at hp
    rcases hx : evaluate_rule x c with e | b
    · rw [hx] at hp
      cases hp
    · rcases List.mem_cons.mp hr with rfl | hr2
      · exact ⟨b, hx⟩
      · rw [hx] at hp
        cases b
        · exact ih _ _ _ hp r hr2
        · exact ih _ _ _ hp r hr2

theorem isOk_exists {ε α : Type} {x : Except ε α} (h : x.isOk = true) :
    ∃ a, x = .ok a := by
  cases x with
  | error e => exact Bool.noConfusion h
  | ok a => exact ⟨a, rfl⟩

/-- `build_match` succeeds whenever the scheme\x27s rule values parse and its
benefit chain resolves. -/
theorem build_match_ok (g : Graph) (catalog : List Scheme) (c : CitizenProfile)
    (s : Scheme) (hrules : schemeRulesOk s = true)
    (hchain : (find_benefit_chain g s.scheme_id 5).isOk = true) :
    ∃ m, build_match g catalog c s = .ok m := by
  rw [build_match]
  obtain ⟨p, hp⟩ := eval_rules_loop_ok c s.eligibility_rules
    (fun r hr => List.all_eq_true.mp hrules r hr) [] []
  obtain ⟨matched, failed⟩ := p
  simp only [hp]
  obtain ⟨u, hu⟩ := isOk_exists hchain
  simp only [hu]
  exact ⟨_, rfl⟩

theorem build_match_ok_inv {g : Graph} {catalog : List Scheme} {c : CitizenProfile}
    {s : Scheme} {m : SchemeMatch} (h : build_match g catalog c s = .ok m) :
    ∃ p, eval_rules_loop c s.eligibility_rules [] [] = .ok p := by
  rw [build_match] at h
  rcases hp : eval_rules_loop c s.eligibility_rules [] [] with e | p
  · simp only [hp] at h
    exact Except.noConfusion h
  · exact ⟨p, rfl⟩

/-- Every field of a successfully built `SchemeMatch`, in terms of the rule
loop\x27s outcome. -/
theorem build_match_fields (g : Graph) (catalog : List Scheme) (c : CitizenProfile)
    (s : Scheme) (m : SchemeMatch) (h : build_match g catalog c s = .ok m) :
    ∃ matched failed unlock_ids,
      eval_rules_loop c s.eligibility_rules [] [] = .ok (matched, failed) ∧
      find_benefit_chain g s.scheme_id 5 = .ok unlock_ids ∧
      m.scheme = s ∧
      m.matched_rules = matched ∧
      m.failed_rules = failed ∧
      m.eligibility_score = pyRound (if s.eligibility_rules.length = 0 then 1
        else pyDiv (matched.length : ℚ) ((s.eligibility_rules.length : ℕ) : ℚ)) 2 ∧
      m.approval_probability = pyRound (pyMul (if s.eligibility_rules.length = 0 then 1
        else pyDiv (matched.length : ℚ) ((s.eligibility_rules.length : ℕ) : ℚ))
        s.approval_rate) 2 ∧
      (m.is_eligible = true ↔ failed = []) ∧
      m.missing_documents = s.required_documents.filter
        (fun d => !(c.documents.contains d)) ∧
      m.estimated_benefit = s.benefit_amount ∧
      m.rank = 0 := by
  rw [build_match] at h
  rcases hp : eval_rules_loop c s.eligibility_rules [] [] with e | p
  · simp only [hp] at h
    exact Except.noConfusion h
  · obtain ⟨matched, failed⟩ := p
    simp only [hp] at h
    rcases hch : find_benefit_chain g s.scheme_id 5 with e | u
    · simp only [hch] at h
      exact Except.noConfusion h
    · simp only [hch] at h
      cases h
      exact ⟨matched, failed, u, rfl, rfl, rfl, rfl, rfl, rfl, rfl,
        List.isEmpty_iff, rfl, rfl, rfl⟩

theorem build_match_scheme {g : Graph} {catalog : List Scheme} {c : CitizenProfile}
    {s : Scheme} {m : SchemeMatch} (h : build_match g catalog c s = .ok m) :
    m.scheme = s := by
  obtain ⟨_, _, _, _, _, hs, _⟩ := build_match_fields g catalog c s m h
  exact hs

theorem map_except_build_scheme (g : Graph) (catalog : List Scheme) (c : CitizenProfile) :
    ∀ {l : List Scheme} {ms : List SchemeMatch},
      List.Forall₂ (fun s m => build_match g catalog c s = .ok m) l ms →
      ms.map (fun m => m.scheme) = l := by
  intro l ms h
  induction h with
  | nil => rfl
  | cons hR _ ih =>
    simp only [List.map, ih]
    rw [build_match_scheme hR]

theorem assign_ranks_from_map_rank :
    ∀ (l : List SchemeMatch) (i : ℕ),
      (assign_ranks_from i l).map (fun m => m.rank) = List.range' (i + 1) l.length := by
  intro l
  induction l with
  | nil => intro i; rfl
  | cons m rest ih =>
    intro i
    show (i + 1) :: (assign_ranks_from (i + 1) rest).map (fun m => m.rank) =
      (i + 1) :: List.range' (i + 2) rest.length
    rw [ih]

theorem assign_ranks_from_length :
    ∀ (l : List SchemeMatch) (i : ℕ), (assign_ranks_from i l).length = l.length := by
  intro l
  induction l with
  | nil => intro i; rfl
  | cons m rest ih =>
    intro i
    show (assign_ranks_from (i + 1) rest).length + 1 = rest.length + 1
    rw [ih]

theorem assign_ranks_from_map_scheme :
    ∀ (l : List SchemeMatch) (i : ℕ),
      (assign_ranks_from i l).map (fun m => m.scheme) = l.map (fun m => m.scheme) := by
  intro l
  induction l with
  | nil => intro i; rfl
  | cons m rest ih =>
    intro i
    show m.scheme :: (assign_ranks_from (i + 1) rest).map (fun m => m.scheme) =
      m.scheme :: rest.map (fun m => m.scheme)
    rw [ih]

theorem assign_ranks_from_mem :
    ∀ (l : List SchemeMatch) (i : ℕ) (m : SchemeMatch), m ∈ l →
      ∃ j, { m with rank := j } ∈ assign_ranks_from i l := by
  intro l
  induction l with
  | nil => intro i m hm; cases hm
  | cons x rest ih =>
    intro i m hm
    rcases List.mem_cons.mp hm with rfl | hm2
    · exact ⟨i + 1, List.mem_cons_self ..⟩
    · obtain ⟨j, hj⟩ := ih (i + 1) m hm2
      exact ⟨j, List.mem_cons_of_mem _ hj⟩

theorem assign_ranks_from_mem_inv :
    ∀ (l : List SchemeMatch) (i : ℕ) (x : SchemeMatch), x ∈ assign_ranks_from i l →
      ∃ m ∈ l, ∃ j, x = { m with rank := j } := by
  intro l
  induction l with
  | nil => intro i x hx; cases hx
  | cons y rest ih =>
    intro i x hx
    rcases List.mem_cons.mp hx with rfl | hx2
    · exact ⟨y, List.mem_cons_self .., i + 1, rfl⟩
    · obtain ⟨m, hm, j, rfl⟩ := ih (i + 1) x hx2
      exact ⟨m, List.mem_cons_of_mem _ hm, j, rfl⟩

/-- Rank reassignment does not disturb the comparator order. -/
theorem assign_ranks_from_pairwise :
    ∀ (l : List SchemeMatch), l.Pairwise matchGe →
      ∀ i, (assign_ranks_from i l).Pairwise matchGe := by
  intro l
  induction l with
  | nil => intro _ i; exact List.Pairwise.nil
  | cons m rest ih =>
    intro h i
    rcases List.pairwise_cons.mp h with ⟨hhead, htail⟩
    show List.Pairwise matchGe ({ m with rank := i + 1 } :: assign_ranks_from (i + 1) rest)
    refine List.pairwise_cons.mpr ⟨?_, ih htail (i + 1)⟩
    intro x hx
    obtain ⟨b, hb, j, rfl⟩ := assign_ranks_from_mem_inv rest (i + 1) x hx
    exact hhead b hb

/-- Every benefit chain of the shipped catalog resolves on the startup graph. -/
theorem catalog_chains_ok :
    SCHEMES.all (fun s => (find_benefit_chain theGraph s.scheme_id 5).isOk) = true := by
  decide

/-- C1: for every citizen profile, `discover_schemes` returns exactly one
`SchemeMatch` per catalog scheme (the result list is the stable sort of the
per-scheme match list `pre`, whose schemes are exactly the catalog, so the
result\x27s schemes are a permutation of the catalog and there is one match per
scheme); the list is sorted by the comparator `rank_before_b`
(`is_eligible` descending primary, `estimated_benefit × approval_probability`
descending secondary); ties retain catalog iteration order (any comparator-
respecting adjacent-in-catalog pair stays in that order, Mathlib stability of
`insertionSort`); ranks are `1..N` in final order; every eligible match
precedes every ineligible one; and within a group of equal eligibility the
secondary key is non-increasing. -/
theorem C1_discover_ranking (c : CitizenProfile) :
    ∃ pre l,
      map_except (build_match theGraph SCHEMES c) SCHEMES = .ok pre ∧
      List.Forall₂ (fun s m => build_match theGraph SCHEMES c s = .ok m) SCHEMES pre ∧
      discover_schemes c = .ok l ∧
      l = assign_ranks (pre.insertionSort matchGe) ∧
      List.Perm (l.map (fun m => m.scheme)) SCHEMES ∧
      l.length = SCHEMES.length ∧
      l.Pairwise matchGe ∧
      l.map (fun m => m.rank) = List.range' 1 SCHEMES.length ∧
      (∀ m₁ m₂ : SchemeMatch, rank_before_b m₁ m₂ = true →
        List.Sublist [m₁, m₂] pre →
        List.Sublist [m₁, m₂] (pre.insertionSort matchGe)) ∧
      (∀ i j : Fin l.length, (i : ℕ) < (j : ℕ) → (l.get j).is_eligible = true →
        (l.get i).is_eligible = true) ∧
      (∀ i j : Fin l.length, (i : ℕ) < (j : ℕ) →
        (l.get i).is_eligible = (l.get j).is_eligible →
        sort_key_val (l.get j) ≤ sort_key_val (l.get i)) := by
  have hrules : ∀ s ∈ SCHEMES, schemeRulesOk s = true :=
    List.all_eq_true.mp catalog_rules_ok
  have hchains : ∀ s ∈ SCHEMES, (find_benefit_chain theGraph s.scheme_id 5).isOk = true :=
    List.all_eq_true.mp catalog_chains_ok
  obtain ⟨pre, hpre⟩ := map_except_ok_exists
    (fun s hs => build_match_ok theGraph SCHEMES c s (hrules s hs) (hchains s hs))
  have hf₂ := map_except_ok_forall hpre
  have hlenpre : pre.length = SCHEMES.length := hf₂.length_eq.symm
  have hpw : (assign_ranks (pre.insertionSort matchGe)).Pairwise matchGe :=
    assign_ranks_from_pairwise _ (List.sorted_insertionSort matchGe pre) 0
  have hget := List.pairwise_iff_get.mp hpw
  refine ⟨pre, assign_ranks (pre.insertionSort matchGe), hpre, hf₂, ?_, rfl, ?_, ?_, hpw,
    ?_, ?_, ?_, ?_⟩
  · rw [discover_schemes, discover_schemes_over, hpre]
  · rw [assign_ranks, assign_ranks_from_map_scheme]
    have hperm := List.Perm.map (fun m => m.scheme) (List.perm_insertionSort matchGe pre)
    rw [map_except_build_scheme theGraph SCHEMES c hf₂] at hperm
    exact hperm
  · rw [assign_ranks, assign_ranks_from_length, List.length_insertionSort, hlenpre]
  · rw [assign_ranks, assign_ranks_from_map_rank, List.length_insertionSort, hlenpre]
  · intro m₁ m₂ hge hsub
    exact List.pair_sublist_insertionSort hge hsub
  · intro i j hij hj
    have hm := hget i j hij
    simp only [matchGe, rank_before_b] at hm
    by_cases heq : ((assign_ranks (pre.insertionSort matchGe)).get i).is_eligible =
        ((assign_ranks (pre.insertionSort matchGe)).get j).is_eligible
    · rw [heq]
      exact hj
    · rw [if_neg heq] at hm
      exact hm
  · intro i j hij heq
    have hm := hget i j hij
    simp only [matchGe, rank_before_b] at hm
    rw [if_pos heq] at hm
    exact of_decide_eq_true hm

/-- Witness for C1 at the empty citizen profile. -/
theorem C1_witness :
    ∃ pre l,
      map_except (build_match theGraph SCHEMES {}) SCHEMES = .ok pre ∧
      List.Forall₂ (fun s m => build_match theGraph SCHEMES {} s = .ok m) SCHEMES pre ∧
      discover_schemes {} = .ok l ∧
      l = assign_ranks (pre.insertionSort matchGe) ∧
      List.Perm (l.map (fun m => m.scheme)) SCHEMES ∧
      l.length = SCHEMES.length ∧
      l.Pairwise matchGe ∧
      l.map (fun m => m.rank) = List.range' 1 SCHEMES.length ∧
      (∀ m₁ m₂ : SchemeMatch, rank_before_b m₁ m₂ = true →
        List.Sublist [m₁, m₂] pre →
        List.Sublist [m₁, m₂] (pre.insertionSort matchGe)) ∧
      (∀ i j : Fin l.length, (i : ℕ) < (j : ℕ) → (l.get j).is_eligible = true →
        (l.get i).is_eligible = true) ∧
      (∀ i j : Fin l.length, (i : ℕ) < (j : ℕ) →
        (l.get i).is_eligible = (l.get j).is_eligible →
        sort_key_val (l.get j) ≤ sort_key_val (l.get i)) :=
  C1_discover_ranking {}

/-- C2 counterexample: for the 20-year-old citizen, the `pm_ujjwala` match
satisfies 1 of 3 rules, yet its `eligibility_score` is `0.33`, not `1/3`:
the code stores `round(score, 2)`, so the score does NOT equal
`|matched| / |rules|` as claimed. -/
theorem C2_counterexample :
    ∃ l, discover_schemes { age := some 20 } = .ok l ∧
      (l.any fun m => m.scheme.scheme_id == "pm_ujjwala" &&
        m.matched_rules.length == 1 &&
        m.scheme.eligibility_rules.length == 3 &&
        m.eligibility_score == mkRat 33 100 &&
        !(m.eligibility_score ==
          pyDiv (m.matched_rules.length : ℚ)
            ((m.scheme.eligibility_rules.length : ℕ) : ℚ))) = true :=
  ⟨(discover_schemes { age := some 20 }).toOption.getD [], by decide, by decide⟩

/-- C2 (amended): for every citizen and every catalog scheme the match built
for that scheme satisfies: `eligibility_score` is `|matched| / |rules|`
(`1.0` for zero rules) ROUNDED to 2 decimal places; `is_eligible` is true iff
the failed-rule list is empty; `missing_documents` is the scheme\x27s required
documents minus the citizen\x27s held ones; and `approval_probability` is the
(unrounded) ratio times `approval_rate`, rounded to 2 decimal places — and
this match appears (with its final rank) in the `discover_schemes` output. -/
theorem C2_match_fields_amended (c : CitizenProfile) (s : Scheme) (hs : s ∈ SCHEMES) :
    ∃ pre m j,
      map_except (build_match theGraph SCHEMES c) SCHEMES = .ok pre ∧
      build_match theGraph SCHEMES c s = .ok m ∧
      (∃ l, discover_schemes c = .ok l ∧ { m with rank := j } ∈ l) ∧
      m.scheme = s ∧
      (∃ matched failed,
        eval_rules_loop c s.eligibility_rules [] [] = .ok (matched, failed) ∧
        m.matched_rules = matched ∧ m.failed_rules = failed ∧
        m.eligibility_score = pyRound (if s.eligibility_rules.length = 0 then 1
          else pyDiv (matched.length : ℚ) ((s.eligibility_rules.length : ℕ) : ℚ)) 2 ∧
        m.approval_probability = pyRound (pyMul (if s.eligibility_rules.length = 0 then 1
          else pyDiv (matched.length : ℚ) ((s.eligibility_rules.length : ℕ) : ℚ))
          s.approval_rate) 2 ∧
        (m.is_eligible = true ↔ failed = [])) ∧
      m.missing_documents = s.required_documents.filter
        (fun d => !(c.documents.contains d)) ∧
      m.estimated_benefit = s.benefit_amount := by
  have hrules : ∀ x ∈ SCHEMES, schemeRulesOk x = true :=
    List.all_eq_true.mp catalog_rules_ok
  have hchains : ∀ x ∈ SCHEMES, (find_benefit_chain theGraph x.scheme_id 5).isOk = true :=
    List.all_eq_true.mp catalog_chains_ok
  obtain ⟨pre, hpre⟩ := map_except_ok_exists
    (fun x hx => build_match_ok theGraph SCHEMES c x (hrules x hx) (hchains x hx))
  have hf₂ := map_except_ok_forall hpre
  obtain ⟨m, hmpre, hm⟩ := forall₂_mem_left hf₂ s hs
  have hmsort : m ∈ pre.insertionSort matchGe := (List.mem_insertionSort matchGe).mpr hmpre
  obtain ⟨j, hj⟩ := assign_ranks_from_mem _ 0 m hmsort
  obtain ⟨matched, failed, u, heval, hch, hsch, hmr, hfr, hscore, happr, hiff, hmiss,
    hben, _⟩ := build_match_fields _ _ _ _ _ hm
  refine ⟨pre, m, j, hpre, hm,
    ⟨assign_ranks (pre.insertionSort matchGe), ?_, hj⟩, hsch,
    ⟨matched, failed, heval, hmr, hfr, hscore, happr, hiff⟩, hmiss, hben⟩
  rw [discover_schemes, discover_schemes_over, hpre]

/-- Witness for C2 at the empty citizen profile and `pm_kisan`. -/
theorem C2_witness :
    pm_kisan ∈ SCHEMES ∧
    ∃ pre m j,
      map_except (build_match theGraph SCHEMES {}) SCHEMES = .ok pre ∧
      build_match theGraph SCHEMES {} pm_kisan = .ok m ∧
      (∃ l, discover_schemes {} = .ok l ∧ { m with rank := j } ∈ l) ∧
      m.scheme = pm_kisan ∧
      (∃ matched failed,
        eval_rules_loop {} pm_kisan.eligibility_rules [] [] = .ok (matched, failed) ∧
        m.matched_rules = matched ∧ m.failed_rules = failed ∧
        m.eligibility_score = pyRound (if pm_kisan.eligibility_rules.length = 0 then 1
          else pyDiv (matched.length : ℚ)
            ((pm_kisan.eligibility_rules.length : ℕ) : ℚ)) 2 ∧
        m.approval_probability = pyRound
          (pyMul (if pm_kisan.eligibility_rules.length = 0 then 1
            else pyDiv (matched.length : ℚ)
              ((pm_kisan.eligibility_rules.length : ℕ) : ℚ))
            pm_kisan.approval_rate) 2 ∧
        (m.is_eligible = true ↔ failed = [])) ∧
      m.missing_documents = pm_kisan.required_documents.filter
        (fun d => !(CitizenProfile.documents {} |>.contains d)) ∧
      m.estimated_benefit = pm_kisan.benefit_amount :=
  ⟨by decide, C2_match_fields_amended {} pm_kisan (by decide)⟩

/-- C4 counterexample: a catalog holding one scheme with a malformed
`income_max` value followed by the well-formed `pm_kisan`.  Discovery over it
returns the bare `ValueError` — no result list at all is produced, so the
failure is NOT reported per scheme: the well-formed `pm_kisan` gets no match
and the caller sees only one unhandled exception aborting the whole call. -/
theorem C4_counterexample :
    malformedRule bad_rule = true ∧
    bad_rule ∈ bad_scheme.eligibility_rules ∧
    discover_schemes_over [bad_scheme, pm_kisan]
      (buildGraph [bad_scheme, pm_kisan]) {} = .error .valueError ∧
    ∀ l, discover_schemes_over [bad_scheme, pm_kisan]
      (buildGraph [bad_scheme, pm_kisan]) {} ≠ .ok l := by
  have h3 : discover_schemes_over [bad_scheme, pm_kisan]
      (buildGraph [bad_scheme, pm_kisan]) {} = .error .valueError := by decide
  exact ⟨by decide, by decide, h3, fun l h => Except.noConfusion (h3.symm.trans h)⟩

/-- C4 (amended): a malformed numeric rule value makes `evaluate_rule` raise
`ValueError` — it is never silently treated as the rule evaluating to false —
and the exception propagates out of discovery unhandled: whenever
`discover_schemes` over any catalog and graph returns a result list, no rule
of any catalog scheme was malformed.  (The failure aborts the whole
discovery call; it is not reported per scheme.) -/
theorem C4_eval_failure_amended :
    (∀ (r : EligibilityRule) (c : CitizenProfile), malformedRule r = true →
      evaluate_rule r c = .error .valueError) ∧
    (∀ (catalog : List Scheme) (g : Graph) (c : CitizenProfile) (l : List SchemeMatch),
      discover_schemes_over catalog g c = .ok l →
      ∀ s ∈ catalog, ∀ r ∈ s.eligibility_rules, malformedRule r = false) := by
  have part1 : ∀ (r : EligibilityRule) (c : CitizenProfile), malformedRule r = true →
      evaluate_rule r c = .error .valueError := by
    intro r c hm
    rw [evaluate_rule]
    rw [malformedRule] at hm
    cases hty : r.rule_type <;> rw [hty] at hm
    case age_min => rw [Option.isNone_iff_eq_none.mp hm]
    case age_max => rw [Option.isNone_iff_eq_none.mp hm]
    case income_max => rw [Option.isNone_iff_eq_none.mp hm]
    all_goals exact Bool.noConfusion hm
  refine ⟨part1, ?_⟩
  intro catalog g c l h s hs r hr
  rw [discover_schemes_over] at h
  rcases hme : map_except (build_match g catalog c) catalog with e | ms
  · simp only [hme] at h
    exact Except.noConfusion h
  · have hf₂ := map_except_ok_forall hme
    obtain ⟨m, _, hm⟩ := forall₂_mem_left hf₂ s hs
    obtain ⟨p, hp⟩ := build_match_ok_inv hm
    obtain ⟨b, hb⟩ := eval_rules_loop_ok_inv c s.eligibility_rules [] [] p hp r hr
    refine Bool.eq_false_iff.mpr (fun hmal => ?_)
    rw [part1 r c hmal] at hb
    exact Except.noConfusion hb

/-- Witness for C4: the malformed rule of `bad_scheme` does raise, and the
shipped catalog (whose discovery at the empty profile succeeds) has no
malformed rule. -/
theorem C4_witness :
    malformedRule bad_rule = true ∧
    evaluate_rule bad_rule {} = .error .valueError ∧
    ∀ s ∈ SCHEMES, ∀ r ∈ s.eligibility_rules, malformedRule r = false :=
  ⟨by decide, C4_eval_failure_amended.1 bad_rule {} (by decide),
   C4_eval_failure_amended.2 SCHEMES theGraph {}
     ((discover_schemes {}).toOption.getD []) (by decide)⟩
